import Mathlib

/-!
Verification development for the lisdf dual-format rendering engine
(`lisdf/components/model.py` and `lisdf/components/state.py`).

The entity dataclasses and their `_to_sdf` / `_to_urdf` methods are embedded
from the source.  The supporting module `lisdf/components/base.py` (the
`Pose` value type and the `StringifyContext` render context), the shape /
material / sensor / joint-info collaborator descriptors, and the
`indent_text` utility are not part of the source snapshot; they are modelled
from the specification and carry doc comments saying so.

Python floats are abstracted as exact integers (`ℤ`), and Python string
formatting of numbers is abstracted by an executable integer printer.  Python exceptions are modelled by an `Except` result
paired with the (mutated) context, so that context mutations performed
before an exception propagates are preserved, exactly as with a Python
mutable context object.
-/

namespace Lisdf

/- ### String helpers (lisdf.utils.printing and Python str methods) -/

/-- Whitespace test used by `strip`, matching Python `str.strip()` on the
whitespace characters that occur in the rendered templates. -/
def isSpaceChar (c : Char) : Bool :=
  c == ' ' || c == '\n' || c == '\t' || c == '\r'

/-- Characters of a string, trimmed of leading and trailing whitespace. -/
def trimChars (l : List Char) : List Char :=
  ((l.dropWhile isSpaceChar).reverse.dropWhile isSpaceChar).reverse

/-- Python `str.strip()`. -/
def strip (s : String) : String := ⟨trimChars s.data⟩

/-- Split a character list at newline characters. -/
def splitLinesAux : List Char → List Char → List (List Char)
  | [], acc => [acc.reverse]
  | c :: cs, acc =>
    if c = '\n' then acc.reverse :: splitLinesAux cs []
    else splitLinesAux cs (c :: acc)

def splitLines (l : List Char) : List (List Char) := splitLinesAux l []

/-- Join lines with newline characters (inverse of `splitLines`). -/
def joinLines : List (List Char) → List Char
  | [] => []
  | [l] => l
  | l :: ls => l ++ '\n' :: joinLines ls

/-- Modelled from the spec: the `indent_text` helper of
`lisdf.utils.printing` (missing from the snapshot), which re-indents a
multi-line fragment by two spaces per level; every call site in the source
immediately strips the result, so only the interior line indentation is
observable. -/
def indent_text (s : String) (level : Nat := 1) : String :=
  ⟨joinLines ((splitLines s.data).map
    (fun l => List.replicate (2 * level) ' ' ++ l))⟩

/-- Digits of a natural number, most significant first (fuel-driven so that
it evaluates inside the kernel). -/
def natDigits : Nat → Nat → List Char
  | 0, _ => []
  | _ + 1, 0 => []
  | fuel + 1, n + 1 =>
    natDigits fuel ((n + 1) / 10) ++ [Char.ofNat (48 + (n + 1) % 10)]

def natStr (n : Nat) : String :=
  if n = 0 then "0" else ⟨natDigits (n + 1) n⟩

def intStr (i : Int) : String :=
  if i < 0 then "-" ++ natStr i.natAbs else natStr i.natAbs

/-- Modelled from the spec: the textual form of a numeric field.  The
source formats Python floats through f-strings; the embedding renders the
abstracting exact integer. -/
def numStr (q : ℤ) : String := intStr q

/-- Python `f"{bool}"` text. -/
def boolStr : Bool → String
  | true => "True"
  | false => "False"

/-- Boolean prefix test on character lists. -/
def isPrefixChars : List Char → List Char → Bool
  | [], _ => true
  | _ :: _, [] => false
  | a :: as, b :: bs => a == b && isPrefixChars as bs

/-- Boolean substring test on character lists (needle, haystack). -/
def containsChars (needle : List Char) : List Char → Bool
  | [] => isPrefixChars needle []
  | b :: bs => isPrefixChars needle (b :: bs) || containsChars needle bs

/-- `strContains hay needle` holds when `needle` occurs contiguously in
`hay`. -/
def strContains (hay needle : String) : Bool :=
  containsChars needle.data hay.data

/- ### Pose (modelled from the spec) -/

/-- Modelled from the spec: the `Pose` rigid-transform value type of
`lisdf/components/base.py` (missing from the snapshot).  The spec describes
a position plus an orientation with an associative composition operator and
an identity; the embedding represents the orientation as a 3×3 matrix and
the position as a translation vector, over exact integers (the float
components are abstracted by exact arithmetic, under which the spec's
algebraic laws are stated). -/
structure Pose where
  r00 : ℤ
  r01 : ℤ
  r02 : ℤ
  r10 : ℤ
  r11 : ℤ
  r12 : ℤ
  r20 : ℤ
  r21 : ℤ
  r22 : ℤ
  px : ℤ
  py : ℤ
  pz : ℤ
deriving DecidableEq, Repr

/-- Modelled from the spec: `Pose.identity()`. -/
def Pose.identity : Pose := ⟨1, 0, 0, 0, 1, 0, 0, 0, 1, 0, 0, 0⟩

/-- Modelled from the spec: `compose(outer, inner)` applies `outer` as the
frame in which `inner` is expressed: the rotation part is the matrix
product and the position is `t_outer + R_outer · t_inner`. -/
def Pose.compose (a b : Pose) : Pose where
  r00 := a.r00 * b.r00 + a.r01 * b.r10 + a.r02 * b.r20
  r01 := a.r00 * b.r01 + a.r01 * b.r11 + a.r02 * b.r21
  r02 := a.r00 * b.r02 + a.r01 * b.r12 + a.r02 * b.r22
  r10 := a.r10 * b.r00 + a.r11 * b.r10 + a.r12 * b.r20
  r11 := a.r10 * b.r01 + a.r11 * b.r11 + a.r12 * b.r21
  r12 := a.r10 * b.r02 + a.r11 * b.r12 + a.r12 * b.r22
  r20 := a.r20 * b.r00 + a.r21 * b.r10 + a.r22 * b.r20
  r21 := a.r20 * b.r01 + a.r21 * b.r11 + a.r22 * b.r21
  r22 := a.r20 * b.r02 + a.r21 * b.r12 + a.r22 * b.r22
  px := a.px + (a.r00 * b.px + a.r01 * b.py + a.r02 * b.pz)
  py := a.py + (a.r10 * b.px + a.r11 * b.py + a.r12 * b.pz)
  pz := a.pz + (a.r20 * b.px + a.r21 * b.py + a.r22 * b.pz)

theorem Pose.compose_assoc (a b c : Pose) :
    Pose.compose (Pose.compose a b) c = Pose.compose a (Pose.compose b c) := by
  cases a; cases b; cases c
  simp only [Pose.compose, Pose.mk.injEq]
  and_intros <;> ring

theorem Pose.identity_compose (p : Pose) :
    Pose.compose Pose.identity p = p := by
  cases p
  simp only [Pose.compose, Pose.identity, Pose.mk.injEq]
  and_intros <;> ring

theorem Pose.compose_identity (p : Pose) :
    Pose.compose p Pose.identity = p := by
  cases p
  simp only [Pose.compose, Pose.identity, Pose.mk.injEq]
  and_intros <;> ring

/-- Translation-only pose, used for concrete witnesses. -/
def Pose.translation (x y z : ℤ) : Pose := ⟨1, 0, 0, 0, 1, 0, 0, 0, 1, x, y, z⟩

/-- Modelled from the spec: the nesting-format (SDF) textual rendering of a
pose, reading only the components. -/
def sdfPoseText (p : Pose) : String :=
  "<pose>" ++ numStr p.px ++ " " ++ numStr p.py ++ " " ++ numStr p.pz ++ " "
    ++ numStr p.r00 ++ " " ++ numStr p.r01 ++ " " ++ numStr p.r02 ++ " "
    ++ numStr p.r10 ++ " " ++ numStr p.r11 ++ " " ++ numStr p.r12 ++ " "
    ++ numStr p.r20 ++ " " ++ numStr p.r21 ++ " " ++ numStr p.r22
    ++ "</pose>"

/-- Modelled from the spec: the flattening-format (URDF) textual rendering
of a (fully composed) pose. -/
def urdfOriginText (p : Pose) : String :=
  "<origin xyz=\"" ++ numStr p.px ++ " " ++ numStr p.py ++ " " ++ numStr p.pz
    ++ "\" rot=\""
    ++ numStr p.r00 ++ " " ++ numStr p.r01 ++ " " ++ numStr p.r02 ++ " "
    ++ numStr p.r10 ++ " " ++ numStr p.r11 ++ " " ++ numStr p.r12 ++ " "
    ++ numStr p.r20 ++ " " ++ numStr p.r21 ++ " " ++ numStr p.r22
    ++ "\"/>"

/- ### Render context (modelled from the spec) -/

/-- Modelled from the spec: the default name-scope separator of
`lisdf/components/base.py` (missing from the snapshot); the spec gives a
configurable separator with default `.`. -/
def nameScopeSep : String := "."

/-- Join the scope prefixes (outermost first) and a local name with the
separator; the `nameScope` stack stores the innermost scope at the head. -/
def scopedNameOf (stack : List String) (name : String) : String :=
  String.intercalate nameScopeSep (stack.reverse ++ [name])

/-- Top of the pose stack, or identity when empty. -/
def poseTopOf (stack : List Pose) : Pose :=
  stack.headD Pose.identity

/-- Modelled from the spec: the `StringifyContext` render context of
`lisdf/components/base.py` (missing from the snapshot): a name-scope
stack, a pose-accumulation stack, and an append-only diagnostics list.
Stacks store their top at the head.  Diagnostics are modelled by their
message text. -/
structure StringifyContext where
  nameScope : List String := []
  poseStack : List Pose := []
  warnings : List String := []
deriving DecidableEq, Repr

/-- A fresh context, created per top-level render call. -/
def freshCtx : StringifyContext := {}

/-- Modelled from the spec: `warn(entity, message)` records a diagnostic;
never raises, never aborts the render. -/
def StringifyContext.warning (ctx : StringifyContext) (msg : String) :
    StringifyContext :=
  { ctx with warnings := ctx.warnings ++ [msg] }

/-- Modelled from the spec: `scoped_name(local_name)` joins the current
scope-stack prefixes and the local name with the separator. -/
def StringifyContext.get_scoped_name (ctx : StringifyContext) (name : String) :
    String :=
  scopedNameOf ctx.nameScope name

/-- Modelled from the spec: `push_name_scope`, LIFO. -/
def StringifyContext.push_scoped_name (ctx : StringifyContext) (name : String) :
    StringifyContext :=
  { ctx with nameScope := name :: ctx.nameScope }

/-- Modelled from the spec: `pop_name_scope`, LIFO; the spec's failure
taxonomy contains no stack-underflow failure, so popping an empty stack
leaves it empty. -/
def StringifyContext.pop_scoped_name (ctx : StringifyContext) :
    StringifyContext :=
  { ctx with nameScope := ctx.nameScope.tail }

/-- Modelled from the spec: `push_pose(pose)` composes the pose with the
top-of-stack pose (or identity if empty) and pushes the result. -/
def StringifyContext.push_scoped_pose (ctx : StringifyContext) (p : Pose) :
    StringifyContext :=
  { ctx with poseStack := Pose.compose (poseTopOf ctx.poseStack) p :: ctx.poseStack }

/-- Modelled from the spec: `pop_pose()` pops; popping an empty stack
leaves it empty (no stack-underflow failure in the spec's taxonomy). -/
def StringifyContext.pop_scoped_pose (ctx : StringifyContext) :
    StringifyContext :=
  { ctx with poseStack := ctx.poseStack.tail }

/-- Modelled from the spec: the flattening format bakes the accumulated
ancestor poses into each rendered pose, so the URDF text of a pose is the
composition of the pose-stack top with the local pose. -/
def Pose._to_urdf (p : Pose) (ctx : StringifyContext) : String :=
  urdfOriginText (Pose.compose (poseTopOf ctx.poseStack) p)

/-- Modelled from the spec: the nesting format keeps poses local, so the
SDF text of a pose reads only its own components. -/
def Pose._to_sdf (p : Pose) (_ctx : StringifyContext) : String :=
  sdfPoseText p

/- ### Exceptions -/

/-- Python exceptions that the renderers can raise. -/
inductive RenderErr where
  | valueError (msg : String)
  | assertionError (msg : String)
  | attributeError (msg : String)
deriving DecidableEq, Repr

/-- Result of a fallible rendering step: the `Except` outcome together
with the context, whose mutations persist even when an exception
propagates (the context is a mutable Python object). -/
abbrev RenderResult := Except RenderErr String × StringifyContext

/-- Render every element of a list left to right, stopping at the first
exception, threading the context — the semantics of the source's list
comprehensions over fallible `to_urdf` calls. -/
def mapRender (f : α → StringifyContext → RenderResult) :
    List α → StringifyContext → Except RenderErr (List String) × StringifyContext
  | [], ctx => (.ok [], ctx)
  | a :: as, ctx =>
    match f a ctx with
    | (.error e, ctx1) => (.error e, ctx1)
    | (.ok s, ctx1) =>
      match mapRender f as ctx1 with
      | (.error e, ctx2) => (.error e, ctx2)
      | (.ok ss, ctx2) => (.ok (s :: ss), ctx2)

/- ### Collaborator descriptors (modelled from the spec) -/

/-- Modelled from the spec: shape descriptors (`lisdf.components.shape`,
missing from the snapshot) carry data plus their own two-format renderings;
the embedding keeps the type tag and the two fragments abstract. -/
structure ShapeInfo where
  type : String
  sdfText : String
  urdfText : String
deriving DecidableEq, Repr

/-- Modelled from the spec: `ShapeInfo.from_type(shape_type, **kwargs)`
builds a shape descriptor of the given type; the keyword payload is kept
abstract as the two rendered fragments. -/
def ShapeInfo.from_type (t : String) (sdfText urdfText : String) : ShapeInfo :=
  ⟨t, sdfText, urdfText⟩

/-- Modelled from the spec: an RGBA color (`lisdf.components.material`,
missing from the snapshot). -/
structure RGBA where
  r : ℤ
  g : ℤ
  b : ℤ
  a : ℤ
deriving DecidableEq, Repr

/-- Modelled from the spec: material descriptors carry data plus their own
two-format renderings; `rgba` is the color material that
`Link.from_simple_geom` constructs. -/
inductive Material where
  | rgba (c : RGBA)
  | custom (sdfText urdfText : String)
deriving DecidableEq, Repr

/-- Modelled from the spec: nesting-format text of a material. -/
def Material._to_sdf (m : Material) (_ctx : StringifyContext) : String :=
  match m with
  | .rgba c =>
    "<color>" ++ numStr c.r ++ " " ++ numStr c.g ++ " " ++ numStr c.b ++ " "
      ++ numStr c.a ++ "</color>"
  | .custom s _ => s

/-- Modelled from the spec: flattening-format text of a material. -/
def Material._to_urdf (m : Material) (_ctx : StringifyContext) : String :=
  match m with
  | .rgba c =>
    "<color rgba=\"" ++ numStr c.r ++ " " ++ numStr c.g ++ " " ++ numStr c.b
      ++ " " ++ numStr c.a ++ "\"/>"
  | .custom _ u => u

/-- Modelled from the spec: sensor descriptors are carried by a `Link` but
are not rendered by the `Link` templates of the source, so only their
identity is kept. -/
structure Sensor where
  name : String
deriving DecidableEq, Repr

/-- Modelled from the spec: joint kinematic info (`lisdf.components.control`,
missing from the snapshot) carries a type tag plus its own two-format
renderings. -/
structure JointInfo where
  type : String
  sdfText : String
  urdfText : String
deriving DecidableEq, Repr

/-- Modelled from the spec: optional joint control info with its own
two-format renderings. -/
structure JointControlInfo where
  sdfText : String
  urdfText : String
deriving DecidableEq, Repr

/- ### Entities of lisdf/components/model.py -/

/-- `Inertia` dataclass. -/
structure Inertia where
  ixx : ℤ
  ixy : ℤ
  ixz : ℤ
  iyy : ℤ
  iyz : ℤ
  izz : ℤ
deriving DecidableEq, Repr

def Inertia.zeros : Inertia := ⟨0, 0, 0, 0, 0, 0⟩

def Inertia.from_diagonal (ixx iyy izz : ℤ) : Inertia := ⟨ixx, 0, 0, iyy, 0, izz⟩

def Inertia._to_sdf (i : Inertia) (_ctx : StringifyContext) : String :=
  "<inertia>\n  <ixx>" ++ numStr i.ixx ++ "</ixx>\n  <ixy>" ++ numStr i.ixy
    ++ "</ixy>\n  <ixz>" ++ numStr i.ixz ++ "</ixz>\n  <iyy>" ++ numStr i.iyy
    ++ "</iyy>\n  <iyz>" ++ numStr i.iyz ++ "</iyz>\n  <izz>" ++ numStr i.izz
    ++ "</izz>\n</inertia>"

def Inertia._to_urdf (i : Inertia) (_ctx : StringifyContext) : String :=
  "<inertia ixx=\"" ++ numStr i.ixx ++ "\" ixy=\"" ++ numStr i.ixy
    ++ "\" ixz=\"" ++ numStr i.ixz ++ "\" iyy=\"" ++ numStr i.iyy
    ++ "\" iyz=\"" ++ numStr i.iyz ++ "\" izz=\"" ++ numStr i.izz ++ "\" />"

/-- `Inertial` dataclass. -/
structure Inertial where
  mass : ℤ
  pose : Pose
  inertia : Inertia
deriving DecidableEq, Repr

def Inertial.zeros : Inertial := ⟨0, Pose.identity, Inertia.zeros⟩

def Inertial._to_sdf (i : Inertial) (ctx : StringifyContext) : String :=
  "<inertial>\n  <mass>" ++ numStr i.mass ++ "</mass>\n  "
    ++ Pose._to_sdf i.pose ctx ++ "\n  "
    ++ strip (indent_text (Inertia._to_sdf i.inertia ctx)) ++ "\n</inertial>"

def Inertial._to_urdf (i : Inertial) (ctx : StringifyContext) : String :=
  "<inertial>\n  <mass value=\"" ++ numStr i.mass ++ "\"></mass>\n  "
    ++ Pose._to_urdf i.pose ctx ++ "\n  "
    ++ strip (indent_text (Inertia._to_urdf i.inertia ctx)) ++ "\n</inertial>"

/-- `SurfaceContact` dataclass (no payload in the source). -/
inductive SurfaceContact where
  | mk
deriving DecidableEq, Repr

def SurfaceContact._to_sdf (_s : SurfaceContact) (_ctx : StringifyContext) :
    String := ""

def SurfaceContact._to_urdf (_s : SurfaceContact) (_ctx : StringifyContext) :
    String := ""

/-- `SurfaceFriction` dataclass (no payload in the source). -/
inductive SurfaceFriction where
  | mk
deriving DecidableEq, Repr

def SurfaceFriction._to_sdf (_s : SurfaceFriction) (_ctx : StringifyContext) :
    String := ""

def SurfaceFriction._to_urdf (_s : SurfaceFriction) (_ctx : StringifyContext) :
    String := ""

/-- `SurfaceInfo` dataclass. -/
structure SurfaceInfo where
  contact : Option SurfaceContact := none
  friction : Option SurfaceFriction := none
deriving DecidableEq, Repr

def SurfaceInfo._to_sdf (s : SurfaceInfo) (ctx : StringifyContext) : String :=
  "<surface>\n  "
    ++ (match s.contact with
        | some c => strip (indent_text (SurfaceContact._to_sdf c ctx))
        | none => "")
    ++ "\n  "
    ++ (match s.friction with
        | some f => strip (indent_text (SurfaceFriction._to_sdf f ctx))
        | none => "")
    ++ "\n</surface>"

/-- `SurfaceInfo._to_urdf` warns and returns an empty fragment; it never
raises, so its result type carries no exception. -/
def SurfaceInfo._to_urdf (_s : SurfaceInfo) (ctx : StringifyContext) :
    String × StringifyContext :=
  ("", ctx.warning "Link surface properties are not supported in URDF.")

/-- `Collision` dataclass (the `_Geom` base fields inlined).  The declared
type of `pose` is `Pose`, but `Collision._to_sdf` guards `self.pose` against
`None`, so the embedding keeps it optional. -/
structure Collision where
  name : String
  pose : Option Pose
  shape : ShapeInfo
  surface : Option SurfaceInfo := none
deriving DecidableEq, Repr

def Collision._to_sdf (c : Collision) (ctx : StringifyContext) : String :=
  "<collision name=\"" ++ c.name ++ "\">>\n  "
    ++ (match c.pose with
        | some p => Pose._to_sdf p ctx
        | none => "")
    ++ "\n  <geometry>\n    " ++ strip (indent_text c.shape.sdfText 2)
    ++ "\n  </geometry>\n  "
    ++ (match c.surface with
        | some s => strip (indent_text (SurfaceInfo._to_sdf s ctx))
        | none => "")
    ++ "\n</collision>"

/-- `Collision._to_urdf`; a `None` pose raises `AttributeError` when the
source evaluates `self.pose.to_urdf(ctx)`. -/
def Collision._to_urdf (c : Collision) (ctx : StringifyContext) : RenderResult :=
  match c.pose with
  | none =>
    (.error (.attributeError "NoneType object has no attribute to_urdf"), ctx)
  | some p =>
    let name := ctx.get_scoped_name c.name
    let body := fun (surfPart : String) =>
      "<collision name=\"" ++ name ++ "\">\n  " ++ Pose._to_urdf p ctx
        ++ "\n  <geometry>\n    " ++ strip (indent_text c.shape.urdfText 2)
        ++ "\n  </geometry>\n  " ++ surfPart ++ "\n</collision>"
    match c.surface with
    | none => (.ok (body ""), ctx)
    | some s =>
      let r := SurfaceInfo._to_urdf s ctx
      (.ok (body (strip (indent_text r.1))), r.2)

/-- `Visual` dataclass (the `_Geom` base fields inlined). -/
structure Visual where
  name : String
  pose : Option Pose
  shape : ShapeInfo
  material : Option Material := none
deriving DecidableEq, Repr

def Visual._to_sdf (v : Visual) (ctx : StringifyContext) : String :=
  "<visual name=\"" ++ v.name ++ "\">\n  "
    ++ (match v.pose with
        | some p => Pose._to_sdf p ctx
        | none => "")
    ++ "\n  <geometry>\n    " ++ strip (indent_text v.shape.sdfText 2)
    ++ "\n  </geometry>\n  "
    ++ (match v.material with
        | some m => strip (indent_text (Material._to_sdf m ctx))
        | none => "")
    ++ "\n</visual>"

def Visual._to_material_urdf (v : Visual) (ctx : StringifyContext) : String :=
  let name := ctx.get_scoped_name v.name
  match v.material with
  | some m =>
    "<material name=\"" ++ name ++ "_material\">\n  "
      ++ strip (indent_text (Material._to_urdf m ctx)) ++ "\n</material>"
  | none => ""

/-- `Visual._to_urdf`; a `None` pose raises `AttributeError` when the
source evaluates `self.pose.to_urdf(ctx)`. -/
def Visual._to_urdf (v : Visual) (ctx : StringifyContext) : RenderResult :=
  match v.pose with
  | none =>
    (.error (.attributeError "NoneType object has no attribute to_urdf"), ctx)
  | some p =>
    let name := ctx.get_scoped_name v.name
    let material_str :=
      match v.material with
      | some _ => Visual._to_material_urdf v ctx
      | none => ""
    (.ok ("<visual name=\"" ++ name ++ "\">\n  " ++ Pose._to_urdf p ctx
      ++ "\n  <geometry>\n    " ++ strip (indent_text v.shape.urdfText 2)
      ++ "\n  </geometry>\n  " ++ strip (indent_text material_str)
      ++ "\n</visual>"), ctx)

/-- `Link` dataclass. -/
structure Link where
  name : String
  parent : Option String
  pose : Option Pose
  inertial : Option Inertial := none
  collisions : List Collision := []
  visuals : List Visual := []
  sensors : List Sensor := []
deriving DecidableEq, Repr

/-- `Link.from_simple_geom`: the documented single-geometry convenience
constructor.  The `**kwargs` shape payload is abstracted by the two
rendered fragments passed to `ShapeInfo.from_type`. -/
def Link.from_simple_geom (name : String) (pose : Pose) (shape_type : String)
    (rgba : RGBA) (sdfText urdfText : String)
    (inertial : Option Inertial := none) : Link :=
  let inertial :=
    match inertial with
    | none => Inertial.zeros
    | some i => i
  let shape := ShapeInfo.from_type shape_type sdfText urdfText
  let material := RGBA.mk rgba.r rgba.g rgba.b rgba.a
  { name := name
    pose := none
    parent := none
    inertial := some inertial
    collisions := [{ name := name ++ "_collision", pose := some pose, shape := shape }]
    visuals := [{ name := name ++ "_visual", pose := some pose, shape := shape,
                  material := some (Material.rgba material) }] }

def Link._to_sdf (l : Link) (ctx : StringifyContext) : String :=
  let collision_str :=
    String.intercalate "\n" (l.collisions.map (fun c => Collision._to_sdf c ctx))
  let visual_str :=
    String.intercalate "\n" (l.visuals.map (fun v => Visual._to_sdf v ctx))
  "<link name=\"" ++ l.name ++ "\">\n  "
    ++ (match l.pose with
        | some p => Pose._to_sdf p ctx
        | none => "")
    ++ "\n  "
    ++ (match l.inertial with
        | some i => strip (indent_text (Inertial._to_sdf i ctx))
        | none => "")
    ++ "\n  " ++ strip (indent_text collision_str)
    ++ "\n  " ++ strip (indent_text visual_str) ++ "\n</link>"

/-- `Link._to_urdf`: pushes the link pose (only when present) onto the pose
stack, renders the children, and pops in a `finally` clause on every exit
path, error exits included. -/
def Link._to_urdf (l : Link) (ctx : StringifyContext) : RenderResult :=
  let ctx1 :=
    match l.pose with
    | some p => ctx.push_scoped_pose p
    | none => ctx
  let name := ctx1.get_scoped_name l.name
  match mapRender Collision._to_urdf l.collisions ctx1 with
  | (.error e, ctx2) => (.error e, ctx2.pop_scoped_pose)
  | (.ok colls, ctx2) =>
    match mapRender Visual._to_urdf l.visuals ctx2 with
    | (.error e, ctx3) => (.error e, ctx3.pop_scoped_pose)
    | (.ok viss, ctx3) =>
      (.ok ("<link name=\"" ++ name ++ "\">\n  "
        ++ (match l.inertial with
            | some i => strip (indent_text (Inertial._to_urdf i ctx3))
            | none => "")
        ++ "\n  " ++ strip (indent_text (String.intercalate "\n" colls))
        ++ "\n  " ++ strip (indent_text (String.intercalate "\n" viss))
        ++ "\n</link>"), ctx3.pop_scoped_pose)

/-- `Joint` dataclass.  The declared type of `name` is `str`, but
`Joint._to_sdf` guards it against `None` and `Joint._to_urdf` asserts it,
so the embedding keeps it optional. -/
structure Joint where
  name : Option String
  parent : String
  child : String
  pose : Pose
  joint_info : JointInfo
  control_info : Option JointControlInfo := none
deriving DecidableEq, Repr

def Joint._to_sdf (j : Joint) (ctx : StringifyContext) : String :=
  let name_str :=
    match j.name with
    | some n => " name=\"" ++ n ++ "\""
    | none => ""
  "<joint" ++ name_str ++ " type=\"" ++ j.joint_info.type ++ "\">\n  <parent>"
    ++ j.parent ++ "</parent>\n  <child>" ++ j.child ++ "</child>\n  "
    ++ Pose._to_sdf j.pose ctx ++ "\n  "
    ++ strip (indent_text j.joint_info.sdfText) ++ "\n  "
    ++ (match j.control_info with
        | some ci => strip (indent_text ci.sdfText)
        | none => "")
    ++ "\n</joint>"

/-- `Joint._to_urdf`: asserts that the name is present, then applies the
same scope prefix to the joint name and to the parent and child link
references. -/
def Joint._to_urdf (j : Joint) (ctx : StringifyContext) : RenderResult :=
  match j.name with
  | none => (.error (.assertionError "assert self.name is not None"), ctx)
  | some n =>
    let name := ctx.get_scoped_name n
    let parent := ctx.get_scoped_name j.parent
    let child := ctx.get_scoped_name j.child
    (.ok ("<joint name=\"" ++ name ++ "\" type=\"" ++ j.joint_info.type
      ++ "\">\n  <parent link=\"" ++ parent ++ "\"/>\n  <child link=\""
      ++ child ++ "\"/>\n  " ++ Pose._to_urdf j.pose ctx ++ "\n  "
      ++ strip (indent_text j.joint_info.urdfText) ++ "\n  "
      ++ (match j.control_info with
          | some ci => strip (indent_text ci.urdfText)
          | none => "")
      ++ "\n</joint>"), ctx)

/-- `Model` dataclass. -/
structure Model where
  name : String
  pose : Option Pose := none
  parent : Option String := none
  static : Bool := false
  links : List Link := []
  joints : List Joint := []
deriving DecidableEq, Repr

def Model._to_sdf (m : Model) (ctx : StringifyContext) : String :=
  let link_str :=
    String.intercalate "\n" (m.links.map (fun l => Link._to_sdf l ctx))
  let joint_str :=
    String.intercalate "\n" (m.joints.map (fun j => Joint._to_sdf j ctx))
  "<model name=\"" ++ m.name ++ "\">\n  <static>" ++ boolStr m.static
    ++ "</static>\n  "
    ++ (match m.pose with
        | some p => Pose._to_sdf p ctx
        | none => "")
    ++ "\n  " ++ strip (indent_text link_str)
    ++ "\n  " ++ strip (indent_text joint_str) ++ "\n</model>"

def Model.to_sdf_xml (m : Model) : String :=
  "<?xml version=\"1.0\"?>\n<sdf version=\"1.9\">\n" ++ Model._to_sdf m freshCtx
    ++ "\n</sdf>"

/-- The warning phase of `Model._to_urdf` (source lines 340-345): one
diagnostic per set field among pose / parent / static, in that order. -/
def Model.urdfFieldWarnings (m : Model) (ctx : StringifyContext) :
    StringifyContext :=
  let ctxa :=
    if m.pose.isSome then ctx.warning "Model::pose will be ignored in URDF."
    else ctx
  let ctxb :=
    if m.parent.isSome then ctxa.warning "Model::parent will be ignored in URDF."
    else ctxa
  if m.static then ctxb.warning "Model::static will be ignored in URDF."
  else ctxb

/-- The diagnostics `Model.urdfFieldWarnings` appends. -/
def Model.fieldWarningList (m : Model) : List String :=
  (if m.pose.isSome then ["Model::pose will be ignored in URDF."] else [])
    ++ (if m.parent.isSome then ["Model::parent will be ignored in URDF."] else [])
    ++ (if m.static then ["Model::static will be ignored in URDF."] else [])

/-- The traversal phase of `Model._to_urdf` (source lines 347-356), run on
the context with the model name already pushed: renders links then joints
and pops the name scope in a `finally` clause on every exit path. -/
def Model.urdfBody (m : Model) (ctx1 : StringifyContext) : RenderResult :=
  match mapRender Link._to_urdf m.links ctx1 with
  | (.error e, ctx2) => (.error e, ctx2.pop_scoped_name)
  | (.ok ls, ctx2) =>
    match mapRender Joint._to_urdf m.joints ctx2 with
    | (.error e, ctx3) => (.error e, ctx3.pop_scoped_name)
    | (.ok js, ctx3) =>
      (.ok ("<robot name=\"" ++ m.name ++ "\">\n  "
        ++ strip (indent_text (String.intercalate "\n" ls))
        ++ "\n  " ++ strip (indent_text (String.intercalate "\n" js))
        ++ "\n</robot>"), ctx3.pop_scoped_name)

/-- `Model._to_urdf`: warns for each of pose / parent / static when set,
pushes the model name on the name scope, then runs the traversal phase. -/
def Model._to_urdf (m : Model) (ctx : StringifyContext) : RenderResult :=
  Model.urdfBody m ((Model.urdfFieldWarnings m ctx).push_scoped_name m.name)

def Model.to_urdf_xml (m : Model) : Except RenderErr String :=
  match Model._to_urdf m freshCtx with
  | (.ok s, _) => .ok ("<?xml version=\"1.0\"?>\n" ++ s)
  | (.error e, _) => .error e

def Link.to_sdf_xml (l : Link) : String :=
  Model.to_sdf_xml { name := l.name, links := [l] }

def Link.to_urdf_xml (l : Link) : Except RenderErr String :=
  Model.to_urdf_xml { name := l.name, links := [l] }

/-- `SDFInclude` dataclass.  The declared type of `name` is
`Optional[str]`; the 3-axis scale is a rational triple and the optional
uniform scale is `scale1d` (`_scale1d` in the source).  The externally
resolved `_content` reference is not used by the renderers and is not
modelled. -/
structure SDFInclude where
  name : Option String
  uri : String
  scale : ℤ × ℤ × ℤ
  pose : Option Pose
  parent : Option String := none
  static : Bool := false
  scale1d : Option ℤ := none
deriving DecidableEq, Repr

/-- The `scale_str` of `SDFInclude._to_sdf`: the uniform 1-D scale takes
precedence when set, else the 3-axis vector is printed. -/
def SDFInclude.scale_str (inc : SDFInclude) : String :=
  match inc.scale1d with
  | some s => "<scale>" ++ numStr s ++ "</scale>"
  | none =>
    "<scale>" ++ numStr inc.scale.1 ++ " " ++ numStr inc.scale.2.1 ++ " "
      ++ numStr inc.scale.2.2 ++ "</scale>"

/-- The `name_str` of `SDFInclude._to_sdf`. -/
def SDFInclude.name_str (inc : SDFInclude) : String :=
  match inc.name with
  | some n => " name=\"" ++ n ++ "\""
  | none => ""

def SDFInclude._to_sdf (inc : SDFInclude) (ctx : StringifyContext) : String :=
  "<include" ++ SDFInclude.name_str inc ++ "\">\n  <uri>" ++ inc.uri
    ++ "</uri>\n  <static>"
    ++ boolStr inc.static ++ "</static>\n  " ++ SDFInclude.scale_str inc
    ++ "\n  "
    ++ (match inc.pose with
        | some p => Pose._to_sdf p ctx
        | none => "")
    ++ "\n</include>"

/-- `SDFInclude._to_urdf` raises `ValueError`: the flattening format has no
resource-inclusion mechanism. -/
def SDFInclude._to_urdf (_inc : SDFInclude) (ctx : StringifyContext) :
    RenderResult :=
  (.error (.valueError "Include tags is not supported for URDF."), ctx)

/-- `URDFInclude` subclasses `SDFInclude` without overriding anything. -/
abbrev URDFInclude := SDFInclude

/- ### Entities of lisdf/components/state.py -/

/-- `JointAxisState` dataclass. -/
structure JointAxisState where
  axis : ℤ
  value : ℤ
deriving DecidableEq, Repr

def JointAxisState._to_sdf (a : JointAxisState) (_ctx : StringifyContext) :
    String :=
  "<angle axis=\"" ++ intStr a.axis ++ "\">" ++ numStr a.value ++ "</angle>"

def JointAxisState._to_urdf (_a : JointAxisState) (ctx : StringifyContext) :
    String × StringifyContext :=
  ("", ctx.warning "JointAxisState is not supported in URDF.")

/-- `JointState` dataclass. -/
structure JointState where
  name : String
  axis_states : List JointAxisState := []
deriving DecidableEq, Repr

def JointState._to_sdf (j : JointState) (ctx : StringifyContext) : String :=
  "<joint name=\"" ++ j.name ++ "\">\n"
    ++ String.join (j.axis_states.map
        (fun a => strip (indent_text (JointAxisState._to_sdf a ctx)) ++ "\n"))
    ++ "</joint>"

def JointState._to_urdf (_j : JointState) (ctx : StringifyContext) :
    String × StringifyContext :=
  ("", ctx.warning "JointState is not supported in URDF.")

/-- `LinkState` dataclass. -/
structure LinkState where
  name : String
  pose : Option Pose := none
deriving DecidableEq, Repr

def LinkState._to_sdf (l : LinkState) (ctx : StringifyContext) : String :=
  "<link name=\"" ++ l.name ++ "\">\n"
    ++ (match l.pose with
        | some p => strip (indent_text (Pose._to_sdf p ctx)) ++ "\n"
        | none => "")
    ++ "</link>"

def LinkState._to_urdf (_l : LinkState) (ctx : StringifyContext) :
    String × StringifyContext :=
  ("", ctx.warning "LinkState is not supported in URDF.")

/-- `ModelState` dataclass. -/
structure ModelState where
  name : String
  parent : Option String := none
  pose : Option Pose := none
  joint_states : List JointState := []
  link_states : List LinkState := []
deriving DecidableEq, Repr

def ModelState._to_sdf (m : ModelState) (ctx : StringifyContext) : String :=
  "<model name=\"" ++ m.name ++ "\">\n"
    ++ (match m.pose with
        | some p => strip (indent_text (Pose._to_sdf p ctx)) ++ "\n"
        | none => "")
    ++ String.join (m.joint_states.map
        (fun j => strip (indent_text (JointState._to_sdf j ctx)) ++ "\n"))
    ++ String.join (m.link_states.map
        (fun l => strip (indent_text (LinkState._to_sdf l ctx)) ++ "\n"))
    ++ "</model>"

def ModelState._to_urdf (_m : ModelState) (ctx : StringifyContext) :
    String × StringifyContext :=
  ("", ctx.warning "ModelState is not supported in URDF.")

/-- `WorldState` dataclass. -/
structure WorldState where
  name : String
  model_states : List ModelState := []
deriving DecidableEq, Repr

def WorldState._to_sdf (w : WorldState) (ctx : StringifyContext) : String :=
  "<state world_name=\"" ++ w.name ++ "\">\n"
    ++ String.join (w.model_states.map
        (fun m => strip (indent_text (ModelState._to_sdf m ctx)) ++ "\n"))
    ++ "</state>"

def WorldState._to_urdf (_w : WorldState) (ctx : StringifyContext) :
    String × StringifyContext :=
  ("", ctx.warning "WorldState is not supported in URDF.")

/- ### Entity trees and the dual renderer protocol -/

/-- The two target formats of the dual renderer protocol. -/
inductive Format where
  | sdf
  | urdf
deriving DecidableEq, Repr

/-- The closed set of entity variants of `model.py` and `state.py`; an
entity tree is a value of this type (the dataclasses nest through their
typed child lists). -/
inductive Entity where
  | inertia (v : Inertia)
  | inertial (v : Inertial)
  | surfaceContact (v : SurfaceContact)
  | surfaceFriction (v : SurfaceFriction)
  | surfaceInfo (v : SurfaceInfo)
  | collision (v : Collision)
  | visual (v : Visual)
  | link (v : Link)
  | joint (v : Joint)
  | model (v : Model)
  | sdfInclude (v : SDFInclude)
  | jointAxisState (v : JointAxisState)
  | jointState (v : JointState)
  | linkState (v : LinkState)
  | modelState (v : ModelState)
  | worldState (v : WorldState)
deriving DecidableEq, Repr

/-- Nesting-format rendering of an entity (never raises in the source). -/
def Entity._to_sdf (e : Entity) (ctx : StringifyContext) : String :=
  match e with
  | .inertia v => Inertia._to_sdf v ctx
  | .inertial v => Inertial._to_sdf v ctx
  | .surfaceContact v => SurfaceContact._to_sdf v ctx
  | .surfaceFriction v => SurfaceFriction._to_sdf v ctx
  | .surfaceInfo v => SurfaceInfo._to_sdf v ctx
  | .collision v => Collision._to_sdf v ctx
  | .visual v => Visual._to_sdf v ctx
  | .link v => Link._to_sdf v ctx
  | .joint v => Joint._to_sdf v ctx
  | .model v => Model._to_sdf v ctx
  | .sdfInclude v => SDFInclude._to_sdf v ctx
  | .jointAxisState v => JointAxisState._to_sdf v ctx
  | .jointState v => JointState._to_sdf v ctx
  | .linkState v => LinkState._to_sdf v ctx
  | .modelState v => ModelState._to_sdf v ctx
  | .worldState v => WorldState._to_sdf v ctx

/-- Flattening-format rendering of an entity, with the exception outcome
and the mutated context. -/
def Entity._to_urdf (e : Entity) (ctx : StringifyContext) : RenderResult :=
  match e with
  | .inertia v => (.ok (Inertia._to_urdf v ctx), ctx)
  | .inertial v => (.ok (Inertial._to_urdf v ctx), ctx)
  | .surfaceContact v => (.ok (SurfaceContact._to_urdf v ctx), ctx)
  | .surfaceFriction v => (.ok (SurfaceFriction._to_urdf v ctx), ctx)
  | .surfaceInfo v =>
    let r := SurfaceInfo._to_urdf v ctx
    (.ok r.1, r.2)
  | .collision v => Collision._to_urdf v ctx
  | .visual v => Visual._to_urdf v ctx
  | .link v => Link._to_urdf v ctx
  | .joint v => Joint._to_urdf v ctx
  | .model v => Model._to_urdf v ctx
  | .sdfInclude v => SDFInclude._to_urdf v ctx
  | .jointAxisState v =>
    let r := JointAxisState._to_urdf v ctx
    (.ok r.1, r.2)
  | .jointState v =>
    let r := JointState._to_urdf v ctx
    (.ok r.1, r.2)
  | .linkState v =>
    let r := LinkState._to_urdf v ctx
    (.ok r.1, r.2)
  | .modelState v =>
    let r := ModelState._to_urdf v ctx
    (.ok r.1, r.2)
  | .worldState v =>
    let r := WorldState._to_urdf v ctx
    (.ok r.1, r.2)

/-- Render an entity tree to the chosen format: the nesting format never
raises, the flattening format may. -/
def Entity.render (e : Entity) (fmt : Format) (ctx : StringifyContext) :
    RenderResult :=
  match fmt with
  | .sdf => (.ok (Entity._to_sdf e ctx), ctx)
  | .urdf => Entity._to_urdf e ctx

/- ### Stack discipline of the flattening renderer -/

/-- A context transformer leaves both stacks exactly as it found them. -/
def PreservesStacks {α : Type} (f : StringifyContext → α × StringifyContext) :
    Prop :=
  ∀ ctx, ((f ctx).2.nameScope = ctx.nameScope) ∧ ((f ctx).2.poseStack = ctx.poseStack)

/-- A context transformer started on an empty pose stack leaves the name
scope as found and the pose stack empty.  `Link._to_urdf` satisfies only
this weaker contract: its `finally` clause pops the pose stack even when
no pose was pushed, which on an empty stack is a no-op. -/
def PreservesStacks0 {α : Type} (f : StringifyContext → α × StringifyContext) :
    Prop :=
  ∀ ctx, ctx.poseStack = [] →
    ((f ctx).2.nameScope = ctx.nameScope) ∧ ((f ctx).2.poseStack = [])

theorem PreservesStacks.to0 {α : Type}
    {f : StringifyContext → α × StringifyContext} (h : PreservesStacks f) :
    PreservesStacks0 f := by
  intro ctx hctx
  exact ⟨(h ctx).1, (h ctx).2.trans hctx⟩

theorem mapRender_pres {α : Type} (f : α → StringifyContext → RenderResult)
    (l : List α) (h : ∀ a ∈ l, PreservesStacks (f a)) :
    PreservesStacks (mapRender f l) := by
  induction l with
  | nil => intro ctx; simp [mapRender]
  | cons a as ih =>
    intro ctx
    have ha := h a (by simp)
    have has : ∀ x ∈ as, PreservesStacks (f x) := fun x hx => h x (by simp [hx])
    rcases hfa : f a ctx with ⟨r1, ctx1⟩
    have hp1 := ha ctx
    rw [hfa] at hp1
    cases r1 with
    | error e => simpa [mapRender, hfa] using hp1
    | ok s =>
      rcases hrec : mapRender f as ctx1 with ⟨r2, ctx2⟩
      have hp2 := (ih has) ctx1
      rw [hrec] at hp2
      cases r2 with
      | error e =>
        simp only [mapRender, hfa, hrec]
        exact ⟨hp2.1.trans hp1.1, hp2.2.trans hp1.2⟩
      | ok ss =>
        simp only [mapRender, hfa, hrec]
        exact ⟨hp2.1.trans hp1.1, hp2.2.trans hp1.2⟩

theorem mapRender_pres0 {α : Type} (f : α → StringifyContext → RenderResult)
    (l : List α) (h : ∀ a ∈ l, PreservesStacks0 (f a)) :
    PreservesStacks0 (mapRender f l) := by
  induction l with
  | nil => intro ctx hctx; simpa [mapRender] using hctx
  | cons a as ih =>
    intro ctx hctx
    have ha := h a (by simp)
    have has : ∀ x ∈ as, PreservesStacks0 (f x) := fun x hx => h x (by simp [hx])
    rcases hfa : f a ctx with ⟨r1, ctx1⟩
    have hp1 := ha ctx hctx
    rw [hfa] at hp1
    cases r1 with
    | error e => simpa [mapRender, hfa] using hp1
    | ok s =>
      rcases hrec : mapRender f as ctx1 with ⟨r2, ctx2⟩
      have hp2 := (ih has) ctx1 hp1.2
      rw [hrec] at hp2
      cases r2 with
      | error e =>
        simp only [mapRender, hfa, hrec]
        exact ⟨hp2.1.trans hp1.1, hp2.2⟩
      | ok ss =>
        simp only [mapRender, hfa, hrec]
        exact ⟨hp2.1.trans hp1.1, hp2.2⟩

theorem surfaceInfo_urdf_pres (s : SurfaceInfo) :
    PreservesStacks (SurfaceInfo._to_urdf s) := by
  intro ctx
  simp [SurfaceInfo._to_urdf, StringifyContext.warning]

theorem collision_urdf_pres (c : Collision) :
    PreservesStacks (Collision._to_urdf c) := by
  intro ctx
  cases hp : c.pose with
  | none => simp [Collision._to_urdf, hp]
  | some p =>
    cases hs : c.surface with
    | none => simp [Collision._to_urdf, hp, hs]
    | some s =>
      simp [Collision._to_urdf, hp, hs, SurfaceInfo._to_urdf,
        StringifyContext.warning]

theorem visual_urdf_pres (v : Visual) : PreservesStacks (Visual._to_urdf v) := by
  intro ctx
  cases hp : v.pose with
  | none => simp [Visual._to_urdf, hp]
  | some p => simp [Visual._to_urdf, hp]

theorem joint_urdf_pres (j : Joint) : PreservesStacks (Joint._to_urdf j) := by
  intro ctx
  cases hn : j.name with
  | none => simp [Joint._to_urdf, hn]
  | some n => simp [Joint._to_urdf, hn]

theorem link_urdf_pres0 (l : Link) : PreservesStacks0 (Link._to_urdf l) := by
  intro ctx hctx
  have hcolls := mapRender_pres Collision._to_urdf l.collisions
    (fun c _ => collision_urdf_pres c)
  have hviss := mapRender_pres Visual._to_urdf l.visuals
    (fun v _ => visual_urdf_pres v)
  cases hp : l.pose with
  | none =>
    rcases h1 : mapRender Collision._to_urdf l.collisions ctx with ⟨r1, ctx2⟩
    have hp1 := hcolls ctx
    rw [h1] at hp1
    dsimp only at hp1
    cases r1 with
    | error e =>
      simp only [Link._to_urdf, hp, h1]
      simp [StringifyContext.pop_scoped_pose, hp1.1, hp1.2, hctx]
    | ok colls =>
      rcases h2 : mapRender Visual._to_urdf l.visuals ctx2 with ⟨r2, ctx3⟩
      have hp2 := hviss ctx2
      rw [h2] at hp2
      dsimp only at hp2
      cases r2 with
      | error e =>
        simp only [Link._to_urdf, hp, h1, h2]
        simp [StringifyContext.pop_scoped_pose, hp2.1.trans hp1.1,
          hp2.2.trans (hp1.2.trans hctx)]
      | ok viss =>
        simp only [Link._to_urdf, hp, h1, h2]
        simp [StringifyContext.pop_scoped_pose, hp2.1.trans hp1.1,
          hp2.2.trans (hp1.2.trans hctx)]
  | some p =>
    rcases h1 : mapRender Collision._to_urdf l.collisions
      (ctx.push_scoped_pose p) with ⟨r1, ctx2⟩
    have hp1 := hcolls (ctx.push_scoped_pose p)
    rw [h1] at hp1
    dsimp only at hp1
    have hpush1 : (ctx.push_scoped_pose p).nameScope = ctx.nameScope := rfl
    have hpush2 : (ctx.push_scoped_pose p).poseStack
        = Pose.compose (poseTopOf ctx.poseStack) p :: ctx.poseStack := rfl
    cases r1 with
    | error e =>
      simp only [Link._to_urdf, hp, h1]
      simp [StringifyContext.pop_scoped_pose, hp1.1.trans hpush1,
        hp1.2.trans hpush2, hctx]
    | ok colls =>
      rcases h2 : mapRender Visual._to_urdf l.visuals ctx2 with ⟨r2, ctx3⟩
      have hp2 := hviss ctx2
      rw [h2] at hp2
      dsimp only at hp2
      cases r2 with
      | error e =>
        simp only [Link._to_urdf, hp, h1, h2]
        simp [StringifyContext.pop_scoped_pose,
          (hp2.1.trans hp1.1).trans hpush1,
          (hp2.2.trans hp1.2).trans hpush2, hctx]
      | ok viss =>
        simp only [Link._to_urdf, hp, h1, h2]
        simp [StringifyContext.pop_scoped_pose,
          (hp2.1.trans hp1.1).trans hpush1,
          (hp2.2.trans hp1.2).trans hpush2, hctx]

theorem urdfFieldWarnings_nameScope (m : Model) (ctx : StringifyContext) :
    (Model.urdfFieldWarnings m ctx).nameScope = ctx.nameScope := by
  unfold Model.urdfFieldWarnings
  split <;> split <;> split <;> rfl

theorem urdfFieldWarnings_poseStack (m : Model) (ctx : StringifyContext) :
    (Model.urdfFieldWarnings m ctx).poseStack = ctx.poseStack := by
  unfold Model.urdfFieldWarnings
  split <;> split <;> split <;> rfl

theorem urdfFieldWarnings_warnings (m : Model) (ctx : StringifyContext) :
    (Model.urdfFieldWarnings m ctx).warnings
      = ctx.warnings ++ Model.fieldWarningList m := by
  unfold Model.urdfFieldWarnings Model.fieldWarningList
  split <;> split <;> split <;> simp [StringifyContext.warning]

theorem model_urdf_pres0 (m : Model) : PreservesStacks0 (Model._to_urdf m) := by
  intro ctx hctx
  have hlinks := mapRender_pres0 Link._to_urdf m.links
    (fun l _ => link_urdf_pres0 l)
  have hjoints := mapRender_pres Joint._to_urdf m.joints
    (fun j _ => joint_urdf_pres j)
  have hw1 := urdfFieldWarnings_nameScope m ctx
  have hw2 := urdfFieldWarnings_poseStack m ctx
  rcases h1 : mapRender Link._to_urdf m.links
    ((Model.urdfFieldWarnings m ctx).push_scoped_name m.name) with ⟨r1, ctx2⟩
  have hp1 := hlinks ((Model.urdfFieldWarnings m ctx).push_scoped_name m.name)
    (by simp [StringifyContext.push_scoped_name, hw2, hctx])
  rw [h1] at hp1
  dsimp only at hp1
  have hp1a : ctx2.nameScope = m.name :: ctx.nameScope := by
    have h := hp1.1
    simp only [StringifyContext.push_scoped_name] at h
    simpa [hw1] using h
  have hp1b : ctx2.poseStack = [] := hp1.2
  cases r1 with
  | error e =>
    simp only [Model._to_urdf, Model.urdfBody, h1]
    simp [StringifyContext.pop_scoped_name, hp1a, hp1b]
  | ok ls =>
    rcases h2 : mapRender Joint._to_urdf m.joints ctx2 with ⟨r2, ctx3⟩
    have hp2 := hjoints ctx2
    rw [h2] at hp2
    dsimp only at hp2
    cases r2 with
    | error e =>
      simp only [Model._to_urdf, Model.urdfBody, h1, h2]
      simp [StringifyContext.pop_scoped_name, hp2.1.trans hp1a,
        hp2.2.trans hp1b]
    | ok js =>
      simp only [Model._to_urdf, Model.urdfBody, h1, h2]
      simp [StringifyContext.pop_scoped_name, hp2.1.trans hp1a,
        hp2.2.trans hp1b]

theorem entity_urdf_pres0 (e : Entity) : PreservesStacks0 (Entity._to_urdf e) := by
  cases e with
  | collision v => exact (collision_urdf_pres v).to0
  | visual v => exact (visual_urdf_pres v).to0
  | link v => exact link_urdf_pres0 v
  | joint v => exact (joint_urdf_pres v).to0
  | model v => exact model_urdf_pres0 v
  | surfaceInfo v =>
    exact fun ctx h => ⟨rfl, h⟩
  | jointAxisState v => exact fun ctx h => ⟨rfl, h⟩
  | jointState v => exact fun ctx h => ⟨rfl, h⟩
  | linkState v => exact fun ctx h => ⟨rfl, h⟩
  | modelState v => exact fun ctx h => ⟨rfl, h⟩
  | worldState v => exact fun ctx h => ⟨rfl, h⟩
  | inertia v => exact fun ctx h => ⟨rfl, h⟩
  | inertial v => exact fun ctx h => ⟨rfl, h⟩
  | surfaceContact v => exact fun ctx h => ⟨rfl, h⟩
  | surfaceFriction v => exact fun ctx h => ⟨rfl, h⟩
  | sdfInclude v => exact fun ctx h => ⟨rfl, h⟩

theorem entity_render_pres0 (e : Entity) (fmt : Format) :
    PreservesStacks0 (Entity.render e fmt) := by
  cases fmt with
  | sdf => exact fun ctx h => ⟨rfl, h⟩
  | urdf => exact entity_urdf_pres0 e

/- ### Noninterference: the emitted fragments depend only on the stacks -/

/-- Two contexts agreeing on both stacks (they may hold different
diagnostics). -/
def ctxSim (c1 c2 : StringifyContext) : Prop :=
  c1.nameScope = c2.nameScope ∧ c1.poseStack = c2.poseStack

/-- A renderer whose result depends only on the stack components of the
context, and which evolves the stacks of similar contexts identically. -/
def OutputSim {α : Type} (f : StringifyContext → α × StringifyContext) : Prop :=
  ∀ c1 c2, ctxSim c1 c2 → (f c1).1 = (f c2).1 ∧ ctxSim (f c1).2 (f c2).2

theorem ctxSim.warning {c1 c2 : StringifyContext} (h : ctxSim c1 c2)
    (msg : String) : ctxSim (c1.warning msg) (c2.warning msg) :=
  ⟨h.1, h.2⟩

theorem ctxSim.push_pose {c1 c2 : StringifyContext} (h : ctxSim c1 c2)
    (p : Pose) : ctxSim (c1.push_scoped_pose p) (c2.push_scoped_pose p) := by
  refine ⟨h.1, ?_⟩
  simp [StringifyContext.push_scoped_pose, h.2]

theorem ctxSim.pop_pose {c1 c2 : StringifyContext} (h : ctxSim c1 c2) :
    ctxSim c1.pop_scoped_pose c2.pop_scoped_pose := by
  refine ⟨h.1, ?_⟩
  simp [StringifyContext.pop_scoped_pose, h.2]

theorem ctxSim.push_name {c1 c2 : StringifyContext} (h : ctxSim c1 c2)
    (n : String) : ctxSim (c1.push_scoped_name n) (c2.push_scoped_name n) := by
  refine ⟨?_, h.2⟩
  simp [StringifyContext.push_scoped_name, h.1]

theorem ctxSim.pop_name {c1 c2 : StringifyContext} (h : ctxSim c1 c2) :
    ctxSim c1.pop_scoped_name c2.pop_scoped_name := by
  refine ⟨?_, h.2⟩
  simp [StringifyContext.pop_scoped_name, h.1]

theorem get_scoped_name_sim {c1 c2 : StringifyContext}
    (h : c1.nameScope = c2.nameScope) (n : String) :
    c1.get_scoped_name n = c2.get_scoped_name n := by
  simp [StringifyContext.get_scoped_name, h]

theorem pose_urdf_sim (p : Pose) {c1 c2 : StringifyContext}
    (h : c1.poseStack = c2.poseStack) :
    Pose._to_urdf p c1 = Pose._to_urdf p c2 := by
  simp [Pose._to_urdf, h]

theorem inertial_urdf_sim (i : Inertial) {c1 c2 : StringifyContext}
    (h : c1.poseStack = c2.poseStack) :
    Inertial._to_urdf i c1 = Inertial._to_urdf i c2 := by
  simp [Inertial._to_urdf, Inertia._to_urdf, pose_urdf_sim i.pose h]

theorem mapRender_sim {α : Type} (f : α → StringifyContext → RenderResult)
    (l : List α) (h : ∀ a ∈ l, OutputSim (f a)) :
    ∀ c1 c2, ctxSim c1 c2 →
      (mapRender f l c1).1 = (mapRender f l c2).1
        ∧ ctxSim (mapRender f l c1).2 (mapRender f l c2).2 := by
  induction l with
  | nil =>
    intro c1 c2 hsim
    exact ⟨rfl, hsim⟩
  | cons a as ih =>
    intro c1 c2 hsim
    have ha := h a (by simp) c1 c2 hsim
    rcases hf1 : f a c1 with ⟨r1, d1⟩
    rcases hf2 : f a c2 with ⟨r2, d2⟩
    rw [hf1, hf2] at ha
    dsimp only at ha
    obtain ⟨hr, hd⟩ := ha
    subst hr
    cases r1 with
    | error e =>
      refine ⟨?_, ?_⟩
      · simp [mapRender, hf1, hf2]
      · simp only [mapRender, hf1, hf2]
        exact hd
    | ok s =>
      have hrec := ih (fun x hx => h x (by simp [hx])) d1 d2 hd
      rcases hm1 : mapRender f as d1 with ⟨q1, e1⟩
      rcases hm2 : mapRender f as d2 with ⟨q2, e2⟩
      rw [hm1, hm2] at hrec
      dsimp only at hrec
      obtain ⟨hq, he⟩ := hrec
      subst hq
      cases q1 with
      | error e =>
        refine ⟨?_, ?_⟩
        · simp [mapRender, hf1, hf2, hm1, hm2]
        · simp only [mapRender, hf1, hf2, hm1, hm2]
          exact he
      | ok ss =>
        refine ⟨?_, ?_⟩
        · simp [mapRender, hf1, hf2, hm1, hm2]
        · simp only [mapRender, hf1, hf2, hm1, hm2]
          exact he

theorem surfaceInfo_urdf_sim (s : SurfaceInfo) :
    OutputSim (SurfaceInfo._to_urdf s) := by
  intro c1 c2 hsim
  exact ⟨rfl, hsim.warning _⟩

theorem collision_urdf_sim (c : Collision) : OutputSim (Collision._to_urdf c) := by
  intro c1 c2 hsim
  cases hp : c.pose with
  | none =>
    refine ⟨?_, ?_⟩
    · simp [Collision._to_urdf, hp]
    · simp only [Collision._to_urdf, hp]
      exact hsim
  | some p =>
    cases hs : c.surface with
    | none =>
      refine ⟨?_, ?_⟩
      · simp [Collision._to_urdf, hp, hs, get_scoped_name_sim hsim.1,
          pose_urdf_sim p hsim.2]
      · simp [Collision._to_urdf, hp, hs]
        exact ⟨hsim.1, hsim.2⟩
    | some s =>
      refine ⟨?_, ?_⟩
      · simp [Collision._to_urdf, hp, hs, get_scoped_name_sim hsim.1,
          pose_urdf_sim p hsim.2, SurfaceInfo._to_urdf]
      · simp [Collision._to_urdf, hp, hs, SurfaceInfo._to_urdf,
          StringifyContext.warning]
        exact ⟨hsim.1, hsim.2⟩

theorem material_urdf_const (m : Material) (c1 c2 : StringifyContext) :
    Material._to_urdf m c1 = Material._to_urdf m c2 := by
  cases m <;> rfl

theorem visual_urdf_sim (v : Visual) : OutputSim (Visual._to_urdf v) := by
  intro c1 c2 hsim
  cases hp : v.pose with
  | none =>
    refine ⟨?_, ?_⟩
    · simp [Visual._to_urdf, hp]
    · simp only [Visual._to_urdf, hp]
      exact hsim
  | some p =>
    refine ⟨?_, ?_⟩
    · simp [Visual._to_urdf, hp, get_scoped_name_sim hsim.1,
        pose_urdf_sim p hsim.2, Visual._to_material_urdf]
      cases hm : v.material with
      | none => simp
      | some mat => simp [material_urdf_const mat c1 c2]
    · simp [Visual._to_urdf, hp]
      exact ⟨hsim.1, hsim.2⟩

theorem joint_urdf_sim (j : Joint) : OutputSim (Joint._to_urdf j) := by
  intro c1 c2 hsim
  cases hn : j.name with
  | none =>
    refine ⟨?_, ?_⟩
    · simp [Joint._to_urdf, hn]
    · simp only [Joint._to_urdf, hn]
      exact hsim
  | some n =>
    refine ⟨?_, ?_⟩
    · simp [Joint._to_urdf, hn, get_scoped_name_sim hsim.1,
        pose_urdf_sim j.pose hsim.2]
    · simp [Joint._to_urdf, hn]
      exact ⟨hsim.1, hsim.2⟩

theorem link_urdf_sim (l : Link) : OutputSim (Link._to_urdf l) := by
  intro c1 c2 hsim
  have hcolls := mapRender_sim Collision._to_urdf l.collisions
    (fun c _ => collision_urdf_sim c)
  have hviss := mapRender_sim Visual._to_urdf l.visuals
    (fun v _ => visual_urdf_sim v)
  have hsim1 :
      ctxSim (match l.pose with
              | some p => c1.push_scoped_pose p
              | none => c1)
             (match l.pose with
              | some p => c2.push_scoped_pose p
              | none => c2) := by
    cases l.pose with
    | none => exact hsim
    | some p => exact hsim.push_pose p
  set d1 := (match l.pose with
             | some p => c1.push_scoped_pose p
             | none => c1) with hd1
  set d2 := (match l.pose with
             | some p => c2.push_scoped_pose p
             | none => c2) with hd2
  have hmc := hcolls d1 d2 hsim1
  rcases hm1 : mapRender Collision._to_urdf l.collisions d1 with ⟨q1, e1⟩
  rcases hm2 : mapRender Collision._to_urdf l.collisions d2 with ⟨q2, e2⟩
  rw [hm1, hm2] at hmc
  dsimp only at hmc
  obtain ⟨hq, he⟩ := hmc
  subst hq
  cases q1 with
  | error e =>
    refine ⟨?_, ?_⟩
    · simp [Link._to_urdf, ← hd1, ← hd2, hm1, hm2]
    · simp only [Link._to_urdf, ← hd1, ← hd2, hm1, hm2]
      exact he.pop_pose
  | ok colls =>
    have hmv := hviss e1 e2 he
    rcases hv1 : mapRender Visual._to_urdf l.visuals e1 with ⟨w1, g1⟩
    rcases hv2 : mapRender Visual._to_urdf l.visuals e2 with ⟨w2, g2⟩
    rw [hv1, hv2] at hmv
    dsimp only at hmv
    obtain ⟨hw, hg⟩ := hmv
    subst hw
    cases w1 with
    | error e =>
      refine ⟨?_, ?_⟩
      · simp [Link._to_urdf, ← hd1, ← hd2, hm1, hm2, hv1, hv2]
      · simp only [Link._to_urdf, ← hd1, ← hd2, hm1, hm2, hv1, hv2]
        exact hg.pop_pose
    | ok viss =>
      refine ⟨?_, ?_⟩
      · simp [Link._to_urdf, ← hd1, ← hd2, hm1, hm2, hv1, hv2,
          get_scoped_name_sim hsim1.1]
        cases l.inertial with
        | none => rfl
        | some i => simp [inertial_urdf_sim i hg.2]
      · simp only [Link._to_urdf, ← hd1, ← hd2, hm1, hm2, hv1, hv2]
        exact hg.pop_pose

theorem model_urdfBody_sim (m : Model) : OutputSim (Model.urdfBody m) := by
  intro c1 c2 hsim
  have hlinks := mapRender_sim Link._to_urdf m.links
    (fun l _ => link_urdf_sim l)
  have hjoints := mapRender_sim Joint._to_urdf m.joints
    (fun j _ => joint_urdf_sim j)
  have hml := hlinks _ _ hsim
  rcases hm1 : mapRender Link._to_urdf m.links c1 with ⟨q1, e1⟩
  rcases hm2 : mapRender Link._to_urdf m.links c2 with ⟨q2, e2⟩
  rw [hm1, hm2] at hml
  dsimp only at hml
  obtain ⟨hq, he⟩ := hml
  subst hq
  cases q1 with
  | error e =>
    refine ⟨?_, ?_⟩
    · simp [Model.urdfBody, hm1, hm2]
    · simp only [Model.urdfBody, hm1, hm2]
      exact he.pop_name
  | ok ls =>
    have hmj := hjoints e1 e2 he
    rcases hj1 : mapRender Joint._to_urdf m.joints e1 with ⟨w1, g1⟩
    rcases hj2 : mapRender Joint._to_urdf m.joints e2 with ⟨w2, g2⟩
    rw [hj1, hj2] at hmj
    dsimp only at hmj
    obtain ⟨hw, hg⟩ := hmj
    subst hw
    cases w1 with
    | error e =>
      refine ⟨?_, ?_⟩
      · simp [Model.urdfBody, hm1, hm2, hj1, hj2]
      · simp only [Model.urdfBody, hm1, hm2, hj1, hj2]
        exact hg.pop_name
    | ok js =>
      refine ⟨?_, ?_⟩
      · simp [Model.urdfBody, hm1, hm2, hj1, hj2]
      · simp only [Model.urdfBody, hm1, hm2, hj1, hj2]
        exact hg.pop_name

theorem model_urdf_sim (m : Model) : OutputSim (Model._to_urdf m) := by
  intro c1 c2 hsim
  have hwsim : ctxSim (Model.urdfFieldWarnings m c1) (Model.urdfFieldWarnings m c2) := by
    refine ⟨?_, ?_⟩
    · rw [urdfFieldWarnings_nameScope, urdfFieldWarnings_nameScope]; exact hsim.1
    · rw [urdfFieldWarnings_poseStack, urdfFieldWarnings_poseStack]; exact hsim.2
  exact model_urdfBody_sim m _ _ (hwsim.push_name m.name)

/-- The nesting-format renderer never reads the context: its output is a
function of the entity alone. -/
theorem entity_sdf_const (e : Entity) (c1 c2 : StringifyContext) :
    Entity._to_sdf e c1 = Entity._to_sdf e c2 := rfl

theorem entity_urdf_sim (e : Entity) : OutputSim (Entity._to_urdf e) := by
  cases e with
  | collision v => exact collision_urdf_sim v
  | visual v => exact visual_urdf_sim v
  | link v => exact link_urdf_sim v
  | joint v => exact joint_urdf_sim v
  | model v => exact model_urdf_sim v
  | inertial v =>
    intro c1 c2 hsim
    exact ⟨by simp [Entity._to_urdf, inertial_urdf_sim v hsim.2], hsim⟩
  | inertia v => exact fun c1 c2 hsim => ⟨rfl, hsim⟩
  | surfaceContact v => exact fun c1 c2 hsim => ⟨rfl, hsim⟩
  | surfaceFriction v => exact fun c1 c2 hsim => ⟨rfl, hsim⟩
  | surfaceInfo v => exact fun c1 c2 hsim => ⟨rfl, hsim.warning _⟩
  | sdfInclude v => exact fun c1 c2 hsim => ⟨rfl, hsim⟩
  | jointAxisState v => exact fun c1 c2 hsim => ⟨rfl, hsim.warning _⟩
  | jointState v => exact fun c1 c2 hsim => ⟨rfl, hsim.warning _⟩
  | linkState v => exact fun c1 c2 hsim => ⟨rfl, hsim.warning _⟩
  | modelState v => exact fun c1 c2 hsim => ⟨rfl, hsim.warning _⟩
  | worldState v => exact fun c1 c2 hsim => ⟨rfl, hsim.warning _⟩

theorem entity_render_sim (e : Entity) (fmt : Format) :
    OutputSim (Entity.render e fmt) := by
  cases fmt with
  | sdf => exact fun c1 c2 hsim => ⟨rfl, hsim⟩
  | urdf => exact entity_urdf_sim e

/- ### Success of the flattening renderer on renderable trees -/

/-- A renderer that returns a fragment (no exception) from every context. -/
def RendersOk {α : Type}
    (f : StringifyContext → Except RenderErr α × StringifyContext) : Prop :=
  ∀ ctx, ∃ a ctx2, f ctx = (.ok a, ctx2)

/-- Geometry entries whose pose is present render in the flattening
format; the joints additionally need a name.  These are the conditions
under which the source raises nothing. -/
def Link.urdf_renderable (l : Link) : Prop :=
  (∀ c ∈ l.collisions, c.pose.isSome = true)
    ∧ (∀ v ∈ l.visuals, v.pose.isSome = true)

def Model.urdf_renderable (m : Model) : Prop :=
  (∀ l ∈ m.links, Link.urdf_renderable l)
    ∧ (∀ j ∈ m.joints, j.name.isSome = true)

theorem collision_urdf_ok (c : Collision) (h : c.pose.isSome = true) :
    RendersOk (Collision._to_urdf c) := by
  intro ctx
  rcases hres : Collision._to_urdf c ctx with ⟨r, ctx2⟩
  cases r with
  | ok s => exact ⟨s, ctx2, rfl⟩
  | error e =>
    exfalso
    cases hp : c.pose with
    | none => rw [hp] at h; cases h
    | some p =>
      cases hs : c.surface with
      | none => simp [Collision._to_urdf, hp, hs] at hres
      | some s2 => simp [Collision._to_urdf, hp, hs] at hres

theorem visual_urdf_ok (v : Visual) (h : v.pose.isSome = true) :
    RendersOk (Visual._to_urdf v) := by
  intro ctx
  rcases hres : Visual._to_urdf v ctx with ⟨r, ctx2⟩
  cases r with
  | ok s => exact ⟨s, ctx2, rfl⟩
  | error e =>
    exfalso
    cases hp : v.pose with
    | none => rw [hp] at h; cases h
    | some p => simp [Visual._to_urdf, hp] at hres

theorem joint_urdf_ok (j : Joint) (h : j.name.isSome = true) :
    RendersOk (Joint._to_urdf j) := by
  intro ctx
  rcases hres : Joint._to_urdf j ctx with ⟨r, ctx2⟩
  cases r with
  | ok s => exact ⟨s, ctx2, rfl⟩
  | error e =>
    exfalso
    cases hn : j.name with
    | none => rw [hn] at h; cases h
    | some n => simp [Joint._to_urdf, hn] at hres

theorem mapRender_ok {α : Type} (f : α → StringifyContext → RenderResult)
    (l : List α) (h : ∀ a ∈ l, RendersOk (f a)) :
    RendersOk (mapRender f l) := by
  induction l with
  | nil => exact fun ctx => ⟨[], ctx, rfl⟩
  | cons a as ih =>
    intro ctx
    obtain ⟨s, ctx1, hfa⟩ := h a (by simp) ctx
    obtain ⟨ss, ctx2, hrec⟩ := ih (fun x hx => h x (by simp [hx])) ctx1
    exact ⟨s :: ss, ctx2, by simp [mapRender, hfa, hrec]⟩

theorem link_urdf_ok (l : Link) (h : Link.urdf_renderable l) :
    RendersOk (Link._to_urdf l) := by
  intro ctx
  have hcolls := mapRender_ok Collision._to_urdf l.collisions
    (fun c hc => collision_urdf_ok c (h.1 c hc))
  have hviss := mapRender_ok Visual._to_urdf l.visuals
    (fun v hv => visual_urdf_ok v (h.2 v hv))
  rcases hres : Link._to_urdf l ctx with ⟨r, ctxr⟩
  cases r with
  | ok s => exact ⟨s, ctxr, rfl⟩
  | error e =>
    exfalso
    cases hp : l.pose with
    | none =>
      obtain ⟨colls, ctx2, h1⟩ := hcolls ctx
      obtain ⟨viss, ctx3, h2⟩ := hviss ctx2
      simp [Link._to_urdf, hp, h1, h2] at hres
    | some p =>
      obtain ⟨colls, ctx2, h1⟩ := hcolls (ctx.push_scoped_pose p)
      obtain ⟨viss, ctx3, h2⟩ := hviss ctx2
      simp [Link._to_urdf, hp, h1, h2] at hres

theorem model_urdf_ok (m : Model) (h : Model.urdf_renderable m) :
    RendersOk (Model._to_urdf m) := by
  intro ctx
  have hlinks := mapRender_ok Link._to_urdf m.links
    (fun l hl => link_urdf_ok l (h.1 l hl))
  have hjoints := mapRender_ok Joint._to_urdf m.joints
    (fun j hj => joint_urdf_ok j (h.2 j hj))
  rcases hres : Model._to_urdf m ctx with ⟨r, ctxr⟩
  cases r with
  | ok s => exact ⟨s, ctxr, rfl⟩
  | error e =>
    exfalso
    obtain ⟨ls, ctx2, h1⟩ :=
      hlinks ((Model.urdfFieldWarnings m ctx).push_scoped_name m.name)
    obtain ⟨js, ctx3, h2⟩ := hjoints ctx2
    simp [Model._to_urdf, Model.urdfBody, h1, h2] at hres

/- ### The diagnostics list is append-only -/

/-- A renderer only ever appends to the diagnostics list. -/
def WarnsAppend {α : Type} (f : StringifyContext → α × StringifyContext) :
    Prop :=
  ∀ ctx, ∃ w, (f ctx).2.warnings = ctx.warnings ++ w

theorem mapRender_warns {α : Type} (f : α → StringifyContext → RenderResult)
    (l : List α) (h : ∀ a ∈ l, WarnsAppend (f a)) :
    WarnsAppend (mapRender f l) := by
  induction l with
  | nil => exact fun ctx => ⟨[], by simp [mapRender]⟩
  | cons a as ih =>
    intro ctx
    obtain ⟨w1, hw1⟩ := h a (by simp) ctx
    rcases hfa : f a ctx with ⟨r1, ctx1⟩
    rw [hfa] at hw1
    dsimp only at hw1
    cases r1 with
    | error e => exact ⟨w1, by simp [mapRender, hfa, hw1]⟩
    | ok s =>
      obtain ⟨w2, hw2⟩ := ih (fun x hx => h x (by simp [hx])) ctx1
      rcases hrec : mapRender f as ctx1 with ⟨r2, ctx2⟩
      rw [hrec] at hw2
      dsimp only at hw2
      cases r2 with
      | error e =>
        exact ⟨w1 ++ w2, by simp [mapRender, hfa, hrec, hw2, hw1]⟩
      | ok ss =>
        exact ⟨w1 ++ w2, by simp [mapRender, hfa, hrec, hw2, hw1]⟩

theorem collision_urdf_warns (c : Collision) :
    WarnsAppend (Collision._to_urdf c) := by
  intro ctx
  cases hp : c.pose with
  | none => exact ⟨[], by simp [Collision._to_urdf, hp]⟩
  | some p =>
    cases hs : c.surface with
    | none => exact ⟨[], by simp [Collision._to_urdf, hp, hs]⟩
    | some s =>
      exact ⟨["Link surface properties are not supported in URDF."],
        by simp [Collision._to_urdf, hp, hs, SurfaceInfo._to_urdf,
          StringifyContext.warning]⟩

theorem visual_urdf_warns (v : Visual) : WarnsAppend (Visual._to_urdf v) := by
  intro ctx
  cases hp : v.pose with
  | none => exact ⟨[], by simp [Visual._to_urdf, hp]⟩
  | some p => exact ⟨[], by simp [Visual._to_urdf, hp]⟩

theorem joint_urdf_warns (j : Joint) : WarnsAppend (Joint._to_urdf j) := by
  intro ctx
  cases hn : j.name with
  | none => exact ⟨[], by simp [Joint._to_urdf, hn]⟩
  | some n => exact ⟨[], by simp [Joint._to_urdf, hn]⟩

theorem link_urdf_warns (l : Link) : WarnsAppend (Link._to_urdf l) := by
  intro ctx
  have hcolls := mapRender_warns Collision._to_urdf l.collisions
    (fun c _ => collision_urdf_warns c)
  have hviss := mapRender_warns Visual._to_urdf l.visuals
    (fun v _ => visual_urdf_warns v)
  cases hp : l.pose with
  | none =>
    obtain ⟨w1, hw1⟩ := hcolls ctx
    rcases h1 : mapRender Collision._to_urdf l.collisions ctx with ⟨r1, ctx2⟩
    rw [h1] at hw1
    dsimp only at hw1
    cases r1 with
    | error e =>
      exact ⟨w1, by simp [Link._to_urdf, hp, h1,
        StringifyContext.pop_scoped_pose, hw1]⟩
    | ok colls =>
      obtain ⟨w2, hw2⟩ := hviss ctx2
      rcases h2 : mapRender Visual._to_urdf l.visuals ctx2 with ⟨r2, ctx3⟩
      rw [h2] at hw2
      dsimp only at hw2
      cases r2 with
      | error e =>
        exact ⟨w1 ++ w2, by simp [Link._to_urdf, hp, h1, h2,
          StringifyContext.pop_scoped_pose, hw2, hw1]⟩
      | ok viss =>
        exact ⟨w1 ++ w2, by simp [Link._to_urdf, hp, h1, h2,
          StringifyContext.pop_scoped_pose, hw2, hw1]⟩
  | some p =>
    obtain ⟨w1, hw1⟩ := hcolls (ctx.push_scoped_pose p)
    rcases h1 : mapRender Collision._to_urdf l.collisions
      (ctx.push_scoped_pose p) with ⟨r1, ctx2⟩
    rw [h1] at hw1
    dsimp only at hw1
    have hpw : (ctx.push_scoped_pose p).warnings = ctx.warnings := rfl
    rw [hpw] at hw1
    cases r1 with
    | error e =>
      exact ⟨w1, by simp [Link._to_urdf, hp, h1,
        StringifyContext.pop_scoped_pose, hw1]⟩
    | ok colls =>
      obtain ⟨w2, hw2⟩ := hviss ctx2
      rcases h2 : mapRender Visual._to_urdf l.visuals ctx2 with ⟨r2, ctx3⟩
      rw [h2] at hw2
      dsimp only at hw2
      cases r2 with
      | error e =>
        exact ⟨w1 ++ w2, by simp [Link._to_urdf, hp, h1, h2,
          StringifyContext.pop_scoped_pose, hw2, hw1]⟩
      | ok viss =>
        exact ⟨w1 ++ w2, by simp [Link._to_urdf, hp, h1, h2,
          StringifyContext.pop_scoped_pose, hw2, hw1]⟩

theorem model_urdfBody_warns (m : Model) : WarnsAppend (Model.urdfBody m) := by
  intro ctx
  have hlinks := mapRender_warns Link._to_urdf m.links
    (fun l _ => link_urdf_warns l)
  have hjoints := mapRender_warns Joint._to_urdf m.joints
    (fun j _ => joint_urdf_warns j)
  obtain ⟨w1, hw1⟩ := hlinks ctx
  rcases h1 : mapRender Link._to_urdf m.links ctx with ⟨r1, ctx2⟩
  rw [h1] at hw1
  dsimp only at hw1
  cases r1 with
  | error e =>
    exact ⟨w1, by simp [Model.urdfBody, h1,
      StringifyContext.pop_scoped_name, hw1]⟩
  | ok ls =>
    obtain ⟨w2, hw2⟩ := hjoints ctx2
    rcases h2 : mapRender Joint._to_urdf m.joints ctx2 with ⟨r2, ctx3⟩
    rw [h2] at hw2
    dsimp only at hw2
    cases r2 with
    | error e =>
      exact ⟨w1 ++ w2, by simp [Model.urdfBody, h1, h2,
        StringifyContext.pop_scoped_name, hw2, hw1]⟩
    | ok js =>
      exact ⟨w1 ++ w2, by simp [Model.urdfBody, h1, h2,
        StringifyContext.pop_scoped_name, hw2, hw1]⟩

/-- The context after `Model._to_urdf` holds exactly the warnings it held
before, then the field diagnostics, then whatever the traversal added. -/
theorem model_urdf_warnings (m : Model) (ctx : StringifyContext) :
    ∃ w, (Model._to_urdf m ctx).2.warnings
      = ctx.warnings ++ Model.fieldWarningList m ++ w := by
  obtain ⟨w, hw⟩ :=
    model_urdfBody_warns m ((Model.urdfFieldWarnings m ctx).push_scoped_name m.name)
  refine ⟨w, ?_⟩
  have hpush : ((Model.urdfFieldWarnings m ctx).push_scoped_name m.name).warnings
      = (Model.urdfFieldWarnings m ctx).warnings := rfl
  rw [Model._to_urdf, hw, hpush, urdfFieldWarnings_warnings]

/- ### Claims -/

/-- Claim C4: pose composition is associative —
`compose(compose(a, b), c) = compose(a, compose(b, c))` for all poses —
and `identity` is a two-sided unit: `compose(identity, p) = p =
compose(p, identity)` for every pose `p`. -/
theorem claim_C4_pose_compose_monoid (a b c p : Pose) :
    Pose.compose (Pose.compose a b) c = Pose.compose a (Pose.compose b c)
      ∧ Pose.compose Pose.identity p = p
      ∧ Pose.compose p Pose.identity = p :=
  ⟨Pose.compose_assoc a b c, Pose.identity_compose p, Pose.compose_identity p⟩

/-- Claim C6: every entity meaningful only to the nesting format — the
surface contact/friction info (`SurfaceInfo`) and every state snapshot
entity (`JointAxisState`, `JointState`, `LinkState`, `ModelState`,
`WorldState`) — renders to the flattening format as an `ok` empty fragment
with exactly one diagnostic appended to the context; it never raises. -/
theorem claim_C6_sdf_only_entities_urdf (s : SurfaceInfo) (a : JointAxisState)
    (js : JointState) (ls : LinkState) (ms : ModelState) (ws : WorldState)
    (ctx : StringifyContext) :
    Entity._to_urdf (.surfaceInfo s) ctx
        = (.ok "", ctx.warning "Link surface properties are not supported in URDF.")
      ∧ Entity._to_urdf (.jointAxisState a) ctx
          = (.ok "", ctx.warning "JointAxisState is not supported in URDF.")
      ∧ Entity._to_urdf (.jointState js) ctx
          = (.ok "", ctx.warning "JointState is not supported in URDF.")
      ∧ Entity._to_urdf (.linkState ls) ctx
          = (.ok "", ctx.warning "LinkState is not supported in URDF.")
      ∧ Entity._to_urdf (.modelState ms) ctx
          = (.ok "", ctx.warning "ModelState is not supported in URDF.")
      ∧ Entity._to_urdf (.worldState ws) ctx
          = (.ok "", ctx.warning "WorldState is not supported in URDF.")
      ∧ ∀ msg : String,
          (ctx.warning msg).warnings.length = ctx.warnings.length + 1 := by
  refine ⟨rfl, rfl, rfl, rfl, rfl, rfl, fun msg => ?_⟩
  simp [StringifyContext.warning]

/-- Claim C3: rendering an `SDFInclude` to the flattening format is a hard
failure (a `ValueError` propagated to the caller, no fragment produced,
context untouched), while rendering the same include to the nesting format
succeeds and its fragment contains the resource URI and the scale text. -/
theorem claim_C3_include_rendering (inc : SDFInclude) (ctx : StringifyContext) :
    Entity.render (.sdfInclude inc) .urdf ctx
        = (.error (.valueError "Include tags is not supported for URDF."), ctx)
      ∧ Entity.render (.sdfInclude inc) .sdf ctx
          = (.ok (SDFInclude._to_sdf inc ctx), ctx)
      ∧ (∃ pre suf, SDFInclude._to_sdf inc ctx = pre ++ inc.uri ++ suf)
      ∧ (∃ pre suf,
          SDFInclude._to_sdf inc ctx = pre ++ SDFInclude.scale_str inc ++ suf) := by
  refine ⟨rfl, rfl, ?_, ?_⟩
  · refine ⟨"<include" ++ SDFInclude.name_str inc ++ "\">\n  <uri>",
      "</uri>\n  <static>" ++ boolStr inc.static ++ "</static>\n  "
        ++ SDFInclude.scale_str inc ++ "\n  "
        ++ (match inc.pose with
            | some p => Pose._to_sdf p ctx
            | none => "")
        ++ "\n</include>", ?_⟩
    simp [SDFInclude._to_sdf, String.append_assoc]
  · refine ⟨"<include" ++ SDFInclude.name_str inc ++ "\">\n  <uri>" ++ inc.uri
        ++ "</uri>\n  <static>" ++ boolStr inc.static ++ "</static>\n  ",
      "\n  "
        ++ (match inc.pose with
            | some p => Pose._to_sdf p ctx
            | none => "")
        ++ "\n</include>", ?_⟩
    simp [SDFInclude._to_sdf, String.append_assoc]

/-- Claim C7: a `Joint` with an absent name renders to the nesting format
as a joint element with no name attribute, while rendering it to the
flattening format fails on the name assertion; when the name is present
the assertion branch is unreachable and the flattening render returns a
fragment. -/
theorem claim_C7_joint_optional_name (j : Joint) (ctx : StringifyContext) :
    (j.name = none →
      Joint._to_sdf j ctx
          = "<joint type=\"" ++ j.joint_info.type ++ "\">\n  <parent>"
            ++ j.parent ++ "</parent>\n  <child>" ++ j.child ++ "</child>\n  "
            ++ Pose._to_sdf j.pose ctx ++ "\n  "
            ++ strip (indent_text j.joint_info.sdfText) ++ "\n  "
            ++ (match j.control_info with
                | some ci => strip (indent_text ci.sdfText)
                | none => "")
            ++ "\n</joint>"
        ∧ Joint._to_urdf j ctx
            = (.error (.assertionError "assert self.name is not None"), ctx))
      ∧ (∀ n, j.name = some n → ∃ s, Joint._to_urdf j ctx = (.ok s, ctx)) := by
  refine ⟨fun hn => ⟨?_, ?_⟩, fun n hn => ?_⟩
  · simp only [Joint._to_sdf, SDFInclude.name_str, hn]
    rfl
  · simp only [Joint._to_urdf, hn]
  · refine ⟨"<joint name=\"" ++ ctx.get_scoped_name n ++ "\" type=\""
      ++ j.joint_info.type ++ "\">\n  <parent link=\""
      ++ ctx.get_scoped_name j.parent ++ "\"/>\n  <child link=\""
      ++ ctx.get_scoped_name j.child ++ "\"/>\n  " ++ Pose._to_urdf j.pose ctx
      ++ "\n  " ++ strip (indent_text j.joint_info.urdfText) ++ "\n  "
      ++ (match j.control_info with
          | some ci => strip (indent_text ci.urdfText)
          | none => "") ++ "\n</joint>", ?_⟩
    simp only [Joint._to_urdf, hn]

/-- Concrete joints for the C7 witness: one unnamed, one named. -/
def c7JointInfo : JointInfo :=
  { type := "revolute", sdfText := "<axis/>", urdfText := "<axisu/>" }

def c7JointNoName : Joint :=
  { name := none, parent := "a", child := "b", pose := Pose.identity,
    joint_info := c7JointInfo }

def c7JointNamed : Joint :=
  { name := some "j", parent := "a", child := "b", pose := Pose.identity,
    joint_info := c7JointInfo }

/-- Witness for claim C7 at concrete joints. -/
theorem claim_C7_witness :
    Joint._to_urdf c7JointNoName freshCtx
        = (.error (.assertionError "assert self.name is not None"), freshCtx)
      ∧ ∃ s, Joint._to_urdf c7JointNamed freshCtx = (.ok s, freshCtx) :=
  ⟨((claim_C7_joint_optional_name c7JointNoName freshCtx).1 rfl).2,
    (claim_C7_joint_optional_name c7JointNamed freshCtx).2 "j" rfl⟩

/-- Claim C9: the single-geometry convenience constructor
`Link.from_simple_geom` returns a link with exactly one collision named
`<name>_collision` and exactly one visual named `<name>_visual`, both
carrying the given pose and a shape built from the given type, the visual
carrying the given color as its material, and the link's own pose and
parent unset. -/
theorem claim_C9_from_simple_geom (name : String) (pose : Pose)
    (shape_type : String) (rgba : RGBA) (sdfText urdfText : String) :
    Link.from_simple_geom name pose shape_type rgba sdfText urdfText none
      = { name := name
          parent := none
          pose := none
          inertial := some Inertial.zeros
          collisions := [{ name := name ++ "_collision", pose := some pose,
                           shape := ShapeInfo.from_type shape_type sdfText urdfText }]
          visuals := [{ name := name ++ "_visual", pose := some pose,
                        shape := ShapeInfo.from_type shape_type sdfText urdfText,
                        material := some (Material.rgba rgba) }]
          sensors := [] } := rfl

set_option maxHeartbeats 1000000 in
/-- Claim C1 (amended): rendering a `Model` with pose `mpose` holding one
`Link` with pose `lpose` (one identity-posed collision) to the flattening
format flattens the link name to `<model>.<link>` with the default
separator `.` (and the collision name to `<model>.<collision>`), but the
effective pose used for the link's coordinates is `compose(identity,
lpose) = lpose`: the model pose is not composed — it is ignored with the
diagnostic `Model::pose will be ignored in URDF.`, which is the only
context change. -/
theorem claim_C1_flattened_name_and_pose (mname lname cname : String)
    (mpose lpose : Pose) (shape : ShapeInfo) :
    Model._to_urdf
      { name := mname, pose := some mpose,
        links := [{ name := lname, parent := none, pose := some lpose,
                    collisions := [{ name := cname, pose := some Pose.identity,
                                     shape := shape }] }] }
      freshCtx
      = (.ok ("<robot name=\"" ++ mname ++ "\">\n  "
          ++ strip (indent_text ("<link name=\"" ++ (mname ++ "." ++ lname)
              ++ "\">\n  " ++ ""
              ++ "\n  " ++ strip (indent_text ("<collision name=\""
                  ++ (mname ++ "." ++ cname) ++ "\">\n  "
                  ++ urdfOriginText lpose
                  ++ "\n  <geometry>\n    " ++ strip (indent_text shape.urdfText 2)
                  ++ "\n  </geometry>\n  " ++ "" ++ "\n</collision>"))
              ++ "\n  " ++ strip (indent_text "") ++ "\n</link>"))
          ++ "\n  " ++ strip (indent_text "") ++ "\n</robot>"),
         { nameScope := [], poseStack := [],
           warnings := ["Model::pose will be ignored in URDF."] }) := by
  have key : urdfOriginText lpose
      = urdfOriginText
          (Pose.compose (Pose.compose (poseTopOf []) lpose) Pose.identity) := by
    simp [poseTopOf, Pose.compose_identity, Pose.identity_compose]
  rw [key]
  rfl

/-- Concrete instance for the C1 counterexample: a model posed at
translation `(1, 0, 0)` holding a link posed at translation `(0, 2, 0)`. -/
def cex1Shape : ShapeInfo := ShapeInfo.from_type "box" "<box/>" "<boxu/>"

def cex1ModelPose : Pose := Pose.translation 1 0 0

def cex1LinkPose : Pose := Pose.translation 0 2 0

def cex1Model : Model :=
  { name := "m", pose := some cex1ModelPose,
    links := [{ name := "l", parent := none, pose := some cex1LinkPose,
                collisions := [{ name := "c", pose := some Pose.identity,
                                 shape := cex1Shape }] }] }

/-- The full URDF document of the C1 counterexample model. -/
def cex1Doc : String :=
  match Model.to_urdf_xml cex1Model with
  | .ok s => s
  | .error _ => ""

set_option maxHeartbeats 1000000 in
/-- Counterexample to claim C1 as stated: at this concrete input the
rendered document succeeds and formats the link's coordinates from
`lpose` alone — the text of `compose(mpose, lpose)` (translation
`(1, 2, 0)`) appears nowhere in the document, while the text of `lpose`
(translation `(0, 2, 0)`) does, and the two texts differ. -/
theorem claim_C1_counterexample :
    (Model.to_urdf_xml cex1Model).isOk = true
      ∧ strContains cex1Doc
          (urdfOriginText (Pose.compose cex1ModelPose cex1LinkPose)) = false
      ∧ strContains cex1Doc (urdfOriginText cex1LinkPose) = true
      ∧ urdfOriginText (Pose.compose cex1ModelPose cex1LinkPose)
          ≠ urdfOriginText cex1LinkPose := by
  refine ⟨by decide, by decide, by decide, by decide⟩

/-- Claim C2: for every entity tree and either format, a render call that
starts with empty name-scope and pose stacks ends with both stacks empty —
the conclusion is stated about the final context of the call whether the
render returned a fragment or aborted with a hard failure, so pushes are
always unwound. -/
theorem claim_C2_stack_balance (e : Entity) (fmt : Format)
    (ctx : StringifyContext) (h1 : ctx.nameScope = [])
    (h2 : ctx.poseStack = []) :
    (Entity.render e fmt ctx).2.nameScope = []
      ∧ (Entity.render e fmt ctx).2.poseStack = [] := by
  have h := entity_render_pres0 e fmt ctx h2
  exact ⟨h.1.trans h1, h.2⟩

/-- A model whose only joint has no name: its flattening render fails on
the joint-name assertion after the model name was pushed. -/
def w2Model : Model :=
  { name := "m",
    joints := [{ name := none, parent := "a", child := "b",
                 pose := Pose.identity, joint_info := c7JointInfo }] }

/-- Witness for claim C2: the stacks are empty after a flattening render
that aborts mid-traversal on the joint-name assertion. -/
theorem claim_C2_witness :
    freshCtx.nameScope = [] ∧ freshCtx.poseStack = []
      ∧ ((Entity.render (.model w2Model) .urdf freshCtx).2.nameScope = []
          ∧ (Entity.render (.model w2Model) .urdf freshCtx).2.poseStack = [])
      ∧ (Entity.render (.model w2Model) .urdf freshCtx).1
          = .error (.assertionError "assert self.name is not None") :=
  ⟨rfl, rfl, claim_C2_stack_balance (.model w2Model) .urdf freshCtx rfl rfl,
    rfl⟩

/-- Claim C8: rendering is a deterministic function of the entity tree —
the emitted result depends on the context only through its two stacks, so
two render calls on the same tree with fresh (or any stack-identical)
contexts return byte-identical outputs, whatever diagnostics the contexts
already hold. -/
theorem claim_C8_render_deterministic (e : Entity) (fmt : Format)
    (c1 c2 : StringifyContext) (h1 : c1.nameScope = c2.nameScope)
    (h2 : c1.poseStack = c2.poseStack) :
    (Entity.render e fmt c1).1 = (Entity.render e fmt c2).1 :=
  (entity_render_sim e fmt c1 c2 ⟨h1, h2⟩).1

/-- Witness for claim C8: the same model rendered from a fresh context and
from a context already holding an unrelated diagnostic produces the same
output, in both formats. -/
theorem claim_C8_witness :
    freshCtx.nameScope = (freshCtx.warning "leftover").nameScope
      ∧ freshCtx.poseStack = (freshCtx.warning "leftover").poseStack
      ∧ (Entity.render (.model w2Model) .urdf freshCtx).1
          = (Entity.render (.model w2Model) .urdf (freshCtx.warning "leftover")).1
      ∧ (Entity.render (.model w2Model) .sdf freshCtx).1
          = (Entity.render (.model w2Model) .sdf (freshCtx.warning "leftover")).1 :=
  ⟨rfl, rfl,
    claim_C8_render_deterministic (.model w2Model) .urdf freshCtx
      (freshCtx.warning "leftover") rfl rfl,
    claim_C8_render_deterministic (.model w2Model) .sdf freshCtx
      (freshCtx.warning "leftover") rfl rfl⟩

/-- Pushing a pose does not change the name scope, hence not the
flattened names. -/
theorem push_pose_get_scoped_name (ctx : StringifyContext) (p : Pose)
    (n : String) :
    (ctx.push_scoped_pose p).get_scoped_name n = ctx.get_scoped_name n := rfl

/-- Whenever `Link._to_urdf` returns a fragment, the fragment opens with a
link element whose name is the scope-flattened link name of the entry
context (the pose push inside the link does not touch the name scope). -/
theorem link_urdf_head (l : Link) (ctx : StringifyContext) (s : String)
    (h : (Link._to_urdf l ctx).1 = .ok s) :
    ∃ rest, s = "<link name=\"" ++ ctx.get_scoped_name l.name ++ "\">\n  " ++ rest := by
  cases hp : l.pose with
  | none =>
    rcases h1 : mapRender Collision._to_urdf l.collisions ctx with ⟨r1, c2⟩
    cases r1 with
    | error e => simp [Link._to_urdf, hp, h1] at h
    | ok colls =>
      rcases h2 : mapRender Visual._to_urdf l.visuals c2 with ⟨r2, c3⟩
      cases r2 with
      | error e => simp [Link._to_urdf, hp, h1, h2] at h
      | ok viss =>
        simp only [Link._to_urdf, hp, h1, h2] at h
        refine ⟨(match l.inertial with
                 | some i => strip (indent_text (Inertial._to_urdf i c3))
                 | none => "")
            ++ ("\n  " ++ (strip (indent_text (String.intercalate "\n" colls))
            ++ ("\n  " ++ (strip (indent_text (String.intercalate "\n" viss))
            ++ "\n</link>")))), ?_⟩
        rw [← Except.ok.inj h]
        simp only [String.append_assoc, push_pose_get_scoped_name]
  | some p =>
    rcases h1 : mapRender Collision._to_urdf l.collisions
      (ctx.push_scoped_pose p) with ⟨r1, c2⟩
    cases r1 with
    | error e => simp [Link._to_urdf, hp, h1] at h
    | ok colls =>
      rcases h2 : mapRender Visual._to_urdf l.visuals c2 with ⟨r2, c3⟩
      cases r2 with
      | error e => simp [Link._to_urdf, hp, h1, h2] at h
      | ok viss =>
        simp only [Link._to_urdf, hp, h1, h2] at h
        refine ⟨(match l.inertial with
                 | some i => strip (indent_text (Inertial._to_urdf i c3))
                 | none => "")
            ++ ("\n  " ++ (strip (indent_text (String.intercalate "\n" colls))
            ++ ("\n  " ++ (strip (indent_text (String.intercalate "\n" viss))
            ++ "\n</link>")))), ?_⟩
        rw [← Except.ok.inj h]
        simp only [String.append_assoc, push_pose_get_scoped_name]

/-- Claim C10: under any context, the flattening render of a named joint
applies the same scope prefix (`get_scoped_name` on the unchanged context)
to the joint's own name and to its parent and child link references; a
link of the same model flattens its name with the same function, so when
the joint's parent reference equals a link's name the emitted strings
coincide exactly. -/
theorem claim_C10_joint_reference_scoping (j : Joint) (n : String) (l : Link)
    (ctx : StringifyContext) (hn : j.name = some n) :
    Joint._to_urdf j ctx
        = (.ok ("<joint name=\"" ++ ctx.get_scoped_name n ++ "\" type=\""
            ++ j.joint_info.type ++ "\">\n  <parent link=\""
            ++ ctx.get_scoped_name j.parent ++ "\"/>\n  <child link=\""
            ++ ctx.get_scoped_name j.child ++ "\"/>\n  "
            ++ Pose._to_urdf j.pose ctx ++ "\n  "
            ++ strip (indent_text j.joint_info.urdfText) ++ "\n  "
            ++ (match j.control_info with
                | some ci => strip (indent_text ci.urdfText)
                | none => "") ++ "\n</joint>"), ctx)
      ∧ (∀ s, (Link._to_urdf l ctx).1 = .ok s →
          ∃ rest, s = "<link name=\"" ++ ctx.get_scoped_name l.name
            ++ "\">\n  " ++ rest)
      ∧ (j.parent = l.name →
          ctx.get_scoped_name j.parent = ctx.get_scoped_name l.name) := by
  refine ⟨?_, fun s hs => link_urdf_head l ctx s hs, fun hpl => by rw [hpl]⟩
  simp only [Joint._to_urdf, hn]

/-- Concrete link for the C10 witness. -/
def w10Link : Link := { name := "a", parent := none, pose := none }

/-- Witness for claim C10: at a scope holding the model name `m`, the
joint's emitted parent reference and the link's emitted name are both
`m.a`. -/
theorem claim_C10_witness :
    Joint._to_urdf c7JointNamed (freshCtx.push_scoped_name "m")
        = (.ok ("<joint name=\"m.j\" type=\"revolute\">\n  <parent link=\"m.a\"/>"
            ++ "\n  <child link=\"m.b\"/>\n  "
            ++ "<origin xyz=\"0 0 0\" rot=\"1 0 0 0 1 0 0 0 1\"/>\n  "
            ++ "<axisu/>\n  \n</joint>"),
           freshCtx.push_scoped_name "m")
      ∧ (∃ rest,
          (match (Link._to_urdf w10Link (freshCtx.push_scoped_name "m")).1 with
           | .ok s => s
           | .error _ => "")
            = "<link name=\""
              ++ (freshCtx.push_scoped_name "m").get_scoped_name "a"
              ++ "\">\n  " ++ rest) := by
  constructor
  · have h := (claim_C10_joint_reference_scoping c7JointNamed "j" w10Link
      (freshCtx.push_scoped_name "m") rfl).1
    refine h.trans ?_
    rfl
  · exact (claim_C10_joint_reference_scoping c7JointNamed "j" w10Link
      (freshCtx.push_scoped_name "m") rfl).2.1 _ rfl

/-- Claim C5: for a renderable `Model`, the flattening render appends one
`ignored in this format` diagnostic per set field among pose, parent and
static (`Model.fieldWarningList`), the emitted result is exactly the one
obtained after clearing all three fields (none of them reaches the
fragment), and the render returns a fragment rather than failing. -/
theorem claim_C5_model_field_handling (m : Model) (ctx : StringifyContext)
    (hr : Model.urdf_renderable m) :
    (∃ w, (Model._to_urdf m ctx).2.warnings
        = ctx.warnings ++ Model.fieldWarningList m ++ w)
      ∧ (m.pose.isSome = true →
          "Model::pose will be ignored in URDF." ∈ Model.fieldWarningList m)
      ∧ (m.parent.isSome = true →
          "Model::parent will be ignored in URDF." ∈ Model.fieldWarningList m)
      ∧ (m.static = true →
          "Model::static will be ignored in URDF." ∈ Model.fieldWarningList m)
      ∧ (Model._to_urdf m ctx).1
          = (Model._to_urdf
              { m with pose := none, parent := none, static := false } ctx).1
      ∧ (∃ s ctx2, Model._to_urdf m ctx = (.ok s, ctx2)) := by
  refine ⟨model_urdf_warnings m ctx, ?_, ?_, ?_, ?_, model_urdf_ok m hr ctx⟩
  · intro h; simp [Model.fieldWarningList, h]
  · intro h; simp [Model.fieldWarningList, h]
  · intro h; simp [Model.fieldWarningList, h]
  · have hsim : ctxSim ((Model.urdfFieldWarnings m ctx).push_scoped_name m.name)
        (ctx.push_scoped_name m.name) := by
      constructor
      · simp [StringifyContext.push_scoped_name, urdfFieldWarnings_nameScope]
      · simp [StringifyContext.push_scoped_name, urdfFieldWarnings_poseStack]
    exact (model_urdfBody_sim m _ _ hsim).1

/-- Concrete model for the C5 witness: pose, parent and static all set,
one renderable link (whose own pose is unset) and one named joint. -/
def w5Model : Model :=
  { name := "m", pose := some (Pose.translation 3 0 0), parent := some "world",
    static := true,
    links := [{ name := "l", parent := none, pose := none,
                collisions := [{ name := "c", pose := some Pose.identity,
                                 shape := cex1Shape }] }],
    joints := [c7JointNamed] }

/-- Witness for claim C5 at a concrete fully-decorated model. -/
theorem claim_C5_witness :
    Model.urdf_renderable w5Model
      ∧ (Model._to_urdf w5Model freshCtx).1
          = (Model._to_urdf
              { w5Model with pose := none, parent := none, static := false }
              freshCtx).1
      ∧ (∃ s ctx2, Model._to_urdf w5Model freshCtx = (.ok s, ctx2)) :=
  ⟨by simp [Model.urdf_renderable, Link.urdf_renderable, w5Model, c7JointNamed],
    (claim_C5_model_field_handling w5Model freshCtx
      (by simp [Model.urdf_renderable, Link.urdf_renderable, w5Model,
        c7JointNamed])).2.2.2.2.1,
    (claim_C5_model_field_handling w5Model freshCtx
      (by simp [Model.urdf_renderable, Link.urdf_renderable, w5Model,
        c7JointNamed])).2.2.2.2.2⟩

end Lisdf
